import Mathlib

/-!
Shallow embedding of the cardillo nonsmooth time-stepping core
(`cardillo/solver/moreau.py`), the bilateral constraint elements
(`cardillo/constraints/rigid_connection.py`, `cardillo/constraints/rod.py`)
and the quaternion rigid body (`cardillo/discrete/rigid_body_quaternion.py`),
together with theorems settling the specification claims.

Scalars are modelled as `ℚ` (exact arithmetic) except where the source
computes square roots (`Rod`, quaternion normalization), which are modelled
over `ℝ`.  The assembled model (`cardillo.model.Model`) is represented as a
structure of abstract functions matching the interface `Moreau.step` consumes;
`scipy.sparse.linalg.spsolve` is an abstract linear-solver parameter.
-/

namespace Cardillo

/-- Vectors of rationals indexed by `Fin n` (numpy 1-d arrays). -/
abbrev Vec (n : ℕ) : Type := Fin n → ℚ

/-- Dense/sparse matrices of rationals (numpy 2-d arrays, scipy sparse). -/
abbrev Mat (m n : ℕ) : Type := Matrix (Fin m) (Fin n) ℚ

/-- Index type of the concatenated unknown `x = [u, la_g, la_gamma]` of the
linear system solved in `Moreau.step` (`np.concatenate` / slicing is
represented by a sum type). -/
abbrev KIdx (nu nlag nlagam : ℕ) : Type := Fin nu ⊕ (Fin nlag ⊕ Fin nlagam)

/-- Type of the linear solver `scipy.sparse.linalg.spsolve`, abstracted:
given the assembled matrix `A` and right-hand side `b` it returns some
solution vector `x`. -/
abbrev LinSolve (nu nlag nlagam : ℕ) : Type :=
  Matrix (KIdx nu nlag nlagam) (KIdx nu nlag nlagam) ℚ →
    (KIdx nu nlag nlagam → ℚ) → KIdx nu nlag nlagam → ℚ

/-- The assembled mechanical model, as consumed by `Moreau` (the methods of
`cardillo.model.Model` that `Moreau.step`/`Moreau.solve` call). -/
structure Model (nq nu nlag nlagam nN nT : ℕ) where
  t0 : ℚ
  q0 : Vec nq
  u0 : Vec nu
  la_g0 : Vec nlag
  la_gamma0 : Vec nlagam
  la_N0 : Vec nN
  la_T0 : Vec nT
  q_dot : ℚ → Vec nq → Vec nu → Vec nq
  M : ℚ → Vec nq → Mat nu nu
  h : ℚ → Vec nq → Vec nu → Vec nu
  W_g : ℚ → Vec nq → Mat nu nlag
  W_gamma : ℚ → Vec nq → Mat nu nlagam
  W_N : ℚ → Vec nq → Mat nu nN
  W_T : ℚ → Vec nq → Mat nu nT
  g_dot_u : ℚ → Vec nq → Mat nlag nu
  chi_g : ℚ → Vec nq → Vec nlag
  gamma_u : ℚ → Vec nq → Mat nlagam nu
  chi_gamma : ℚ → Vec nq → Vec nlagam
  g_N : ℚ → Vec nq → Vec nN
  NT_connectivity : Fin nN → List (Fin nT)
  contact_force_fixpoint_update :
    ℚ → Vec nq → Vec nu → Vec nu → Vec nN → Vec nT → (Fin nN → Bool) → Vec nN × Vec nT
  solver_step_callback : ℚ → Vec nq → Vec nu → Vec nq × Vec nu

variable {nq nu nlag nlagam nN nT : ℕ}

/-- `moreau.py` lines 56-58 / 101-103: the block matrix
`bmat([[M, -dt*W_g, -dt*W_gamma], [g_dot_u, None, None], [gamma_u, None, None]])`. -/
def assembleA (dt : ℚ) (Mm : Mat nu nu) (Wg : Mat nu nlag) (Wgamma : Mat nu nlagam)
    (gdu : Mat nlag nu) (gau : Mat nlagam nu) :
    Matrix (KIdx nu nlag nlagam) (KIdx nu nlag nlagam) ℚ :=
  Matrix.of fun i j =>
    match i, j with
    | Sum.inl a, Sum.inl b => Mm a b
    | Sum.inl a, Sum.inr (Sum.inl b) => -dt * Wg a b
    | Sum.inl a, Sum.inr (Sum.inr b) => -dt * Wgamma a b
    | Sum.inr (Sum.inl a), Sum.inl b => gdu a b
    | Sum.inr (Sum.inr a), Sum.inl b => gau a b
    | Sum.inr _, Sum.inr _ => 0

/-- Modelled from the spec (for the refinement comparison of claim C3 only):
the operator the spec describes, the symmetric saddle-point matrix
`[[M, -W_g, -W_gamma], [-W_g^T, 0, 0], [-W_gamma^T, 0, 0]]`. -/
def specOperatorA (Mm : Mat nu nu) (Wg : Mat nu nlag) (Wgamma : Mat nu nlagam) :
    Matrix (KIdx nu nlag nlagam) (KIdx nu nlag nlagam) ℚ :=
  Matrix.of fun i j =>
    match i, j with
    | Sum.inl a, Sum.inl b => Mm a b
    | Sum.inl a, Sum.inr (Sum.inl b) => -Wg a b
    | Sum.inl a, Sum.inr (Sum.inr b) => -Wgamma a b
    | Sum.inr (Sum.inl a), Sum.inl b => -Wg b a
    | Sum.inr (Sum.inr a), Sum.inl b => -Wgamma b a
    | Sum.inr _, Sum.inr _ => 0

/-- The list of active normal-contact indices, in increasing index order
(the indices selected by the boolean mask `I_N`). -/
def activeList (IN : Fin nN → Bool) : List (Fin nN) :=
  (List.finRange nN).filter fun i => IN i

/-- `W_N[:, I_N] @ la_N[I_N]`: the generalized contact force restricted to the
columns of the active normal contacts. -/
def forceN (WN : Mat nu nN) (IN : Fin nN → Bool) (laN : Vec nN) : Vec nu :=
  fun a => ((activeList IN).map fun i => WN a i * laN i).sum

/-- `W_T[:, I_T] @ la_T[I_T]` with `I_T` the flattened friction index list. -/
def forceT (WT : Mat nu nT) (IT : List (Fin nT)) (laT : Vec nT) : Vec nu :=
  fun a => (IT.map fun j => WT a j * laT j).sum

/-- `moreau.py` line 60/105: the right-hand side
`np.concatenate((M @ uk + dt*h + contact forces, -chi_g, -chi_gamma))`. -/
def assembleB (Mm : Mat nu nu) (uk : Vec nu) (dt : ℚ) (hv : Vec nu)
    (cN cT : Vec nu) (chig : Vec nlag) (chigam : Vec nlagam) :
    KIdx nu nlag nlagam → ℚ :=
  Sum.elim (fun a => Mm.mulVec uk a + dt * hv a + cN a + cT a)
    (Sum.elim (fun a => -chig a) (fun a => -chigam a))

/-- Scatter-assignment `out[I_N] = v[I_N]` into a zero vector
(`la_Nk1 = np.zeros_like(la_Nk); la_Nk1[I_N] = la_Nk1_i[I_N]`). -/
def maskN (IN : Fin nN → Bool) (v : Vec nN) : Vec nN :=
  fun i => if IN i then v i else 0

/-- Scatter-assignment `out[I_T] = v[I_T]` into a zero vector, with `I_T` an
integer index list. -/
def maskT (IT : List (Fin nT)) (v : Vec nT) : Vec nT :=
  fun j => if j ∈ IT then v j else 0

/-- `np.max(np.abs(x))` for a (nonempty) list of entries. -/
def maxAbsList (l : List ℚ) : ℚ :=
  l.foldl (fun acc x => max acc |x|) 0

/-- `moreau.py` line 14: `self.fix_point_error_function = lambda x:
np.max(np.abs(x)) / len(x)`. -/
def fix_point_error_function (l : List ℚ) : ℚ :=
  maxAbsList l / (l.length : ℚ)

/-- The quantities captured before the fixed-point loop of `Moreau.step`
(lines 33-54 of `moreau.py`): all model evaluations are made once, at
`(tk1, qk1)`, and the loop body reuses these captured values. -/
structure LoopCtx (nq nu nlag nlagam nN nT : ℕ) where
  m : Model nq nu nlag nlagam nN nT
  ls : LinSolve nu nlag nlagam
  dt : ℚ
  tol : ℚ
  tk1 : ℚ
  qk1 : Vec nq
  uk : Vec nu
  Mm : Mat nu nu
  hv : Vec nu
  Wg : Mat nu nlag
  Wgamma : Mat nu nlagam
  WN : Mat nu nN
  WT : Mat nu nT
  gdu : Mat nlag nu
  gau : Mat nlagam nu
  chig : Vec nlag
  chigam : Vec nlagam
  IN : Fin nN → Bool
  IT : List (Fin nT)

/-- The mutable state of one fixed-point iteration (lines 79-82, 97-98,
110-112 of `moreau.py`). -/
structure IterState (nu nlag nlagam nN nT : ℕ) where
  la_Nk0 : Vec nN
  la_Tk0 : Vec nT
  la_Nk1_i : Vec nN
  la_Tk1_i : Vec nT
  uk1 : Vec nu
  la_gk1 : Vec nlag
  la_gammak1 : Vec nlagam

/-- The data `Moreau.step` returns (line 114 of `moreau.py`), without the
unchanged `tk1, qk1`. -/
@[ext]
structure LoopOut (nu nlag nlagam nN nT : ℕ) where
  converged : Bool
  j : ℕ
  error : ℚ
  uk1 : Vec nu
  la_gk1 : Vec nlag
  la_gammak1 : Vec nlagam
  la_Nk1 : Vec nN
  la_Tk1 : Vec nT

variable {c : LoopCtx nq nu nlag nlagam nN nT}

/-- Line 86: `model.contact_force_fixpoint_update(tk1, qk1, uk, uk1,
la_Nk1_i, la_Tk1_i, I_N=I_N)`. -/
def loopUpdate (c : LoopCtx nq nu nlag nlagam nN nT)
    (st : IterState nu nlag nlagam nN nT) : Vec nN × Vec nT :=
  c.m.contact_force_fixpoint_update c.tk1 c.qk1 c.uk st.uk1 st.la_Nk1_i st.la_Tk1_i c.IN

/-- Line 90: `R = np.concatenate((la_Nk1_i[I_N] - la_Nk0[I_N],
la_Tk1_i[I_T] - la_Tk0[I_T]))`, with `la_Nk1_i, la_Tk1_i` the freshly
updated percussions. -/
def residualList (c : LoopCtx nq nu nlag nlagam nN nT)
    (st : IterState nu nlag nlagam nN nT) : List ℚ :=
  ((activeList c.IN).map fun i => (loopUpdate c st).1 i - st.la_Nk0 i)
    ++ (c.IT.map fun j => (loopUpdate c st).2 j - st.la_Tk0 j)

/-- Line 91: `error = self.fix_point_error_function(R)` at one iteration. -/
def iterError (c : LoopCtx nq nu nlag nlagam nN nT)
    (st : IterState nu nlag nlagam nN nT) : ℚ :=
  fix_point_error_function (residualList c st)

/-- Lines 101-109: rebuild `A` and `b` from the captured quantities and call
`spsolve` with the current contact percussions. -/
def loopSolve (c : LoopCtx nq nu nlag nlagam nN nT) (laN : Vec nN) (laT : Vec nT) :
    KIdx nu nlag nlagam → ℚ :=
  c.ls (assembleA c.dt c.Mm c.Wg c.Wgamma c.gdu c.gau)
    (assembleB c.Mm c.uk c.dt c.hv (forceN c.WN c.IN laN) (forceT c.WT c.IT laT)
      c.chig c.chigam)

/-- One non-converged iteration of the loop body (lines 86, 97-112): update
the percussions, shift `la_*k0`, re-solve the linear system and slice the
solution into `uk1, la_gk1, la_gammak1`. -/
def nextState (c : LoopCtx nq nu nlag nlagam nN nT)
    (st : IterState nu nlag nlagam nN nT) : IterState nu nlag nlagam nN nT :=
  let laN := (loopUpdate c st).1
  let laT := (loopUpdate c st).2
  let x := loopSolve c laN laT
  { la_Nk0 := laN, la_Tk0 := laT, la_Nk1_i := laN, la_Tk1_i := laT,
    uk1 := fun a => x (Sum.inl a),
    la_gk1 := fun a => x (Sum.inr (Sum.inl a)),
    la_gammak1 := fun a => x (Sum.inr (Sum.inr a)) }

/-- The iterate sequence of the loop body: the state seen at the start of
iteration `k` when no convergence break has happened before `k`. -/
def loopState (c : LoopCtx nq nu nlag nlagam nN nT)
    (st0 : IterState nu nlag nlagam nN nT) (k : ℕ) : IterState nu nlag nlagam nN nT :=
  (nextState c)^[k] st0

/-- Lines 83-112, `for j in range(self.fix_point_max_iter)`: `fuel` is the
number of remaining iterations, `j` the Python loop variable for the next
iteration, `errPrev` the value the Python `error` variable holds on entry.
On exhaustion the Python loop leaves `j` at `max_iter - 1` and keeps the last
`error`; the contact-percussion outputs `la_Nk1, la_Tk1` stay at
`np.zeros_like` unless the convergence break assigns their active slices. -/
def loopGo (c : LoopCtx nq nu nlag nlagam nN nT) :
    ℕ → ℕ → ℚ → IterState nu nlag nlagam nN nT → LoopOut nu nlag nlagam nN nT
  | 0, j, errPrev, st =>
    ⟨false, j - 1, errPrev, st.uk1, st.la_gk1, st.la_gammak1, 0, 0⟩
  | fuel + 1, j, _, st =>
    let upd := loopUpdate c st
    let error := iterError c st
    if error < c.tol then
      ⟨true, j, error, st.uk1, st.la_gk1, st.la_gammak1,
        maskN c.IN upd.1, maskT c.IT upd.2⟩
    else
      loopGo c fuel (j + 1) error (nextState c st)

namespace Moreau

/-- Line 35: `tk1 = tk + dt`. -/
def trialT (dt tk : ℚ) : ℚ := tk + dt

/-- Line 36: `qk1 = qk + dt * self.model.q_dot(tk, qk, uk)` — the trial
configuration at which every model quantity of the step is evaluated. -/
def trialQ (m : Model nq nu nlag nlagam nN nT) (dt tk : ℚ) (qk : Vec nq)
    (uk : Vec nu) : Vec nq :=
  fun i => qk i + dt * m.q_dot tk qk uk i

/-- Line 53: `I_N = (g_N <= 0)` with `g_N = self.model.g_N(tk1, qk1)`. -/
def activeSetN (m : Model nq nu nlag nlagam nN nT) (dt tk : ℚ) (qk : Vec nq)
    (uk : Vec nu) : Fin nN → Bool :=
  fun i => decide (m.g_N (trialT dt tk) (trialQ m dt tk qk uk) i ≤ 0)

/-- Line 54: `I_T = self.model.NT_connectivity[I_N].reshape(-1)` — the
connectivity rows of the active normal contacts, flattened in index order. -/
def activeSetT (m : Model nq nu nlag nlagam nN nT) (dt tk : ℚ) (qk : Vec nq)
    (uk : Vec nu) : List (Fin nT) :=
  (activeList (activeSetN m dt tk qk uk)).flatMap m.NT_connectivity

/-- The matrix `A` assembled at lines 56-58, built from quantities evaluated
once at `(tk1, qk1)`. -/
def stepMatrix (m : Model nq nu nlag nlagam nN nT) (dt tk : ℚ) (qk : Vec nq)
    (uk : Vec nu) :
    Matrix (KIdx nu nlag nlagam) (KIdx nu nlag nlagam) ℚ :=
  assembleA dt (m.M (trialT dt tk) (trialQ m dt tk qk uk))
    (m.W_g (trialT dt tk) (trialQ m dt tk qk uk))
    (m.W_gamma (trialT dt tk) (trialQ m dt tk qk uk))
    (m.g_dot_u (trialT dt tk) (trialQ m dt tk qk uk))
    (m.gamma_u (trialT dt tk) (trialQ m dt tk qk uk))

/-- The right-hand side `b` assembled at lines 60-62, with the warm-start
contact percussions entering only through the active columns. -/
def stepRhs (m : Model nq nu nlag nlagam nN nT) (dt tk : ℚ) (qk : Vec nq)
    (uk : Vec nu) (laN : Vec nN) (laT : Vec nT) : KIdx nu nlag nlagam → ℚ :=
  assembleB (m.M (trialT dt tk) (trialQ m dt tk qk uk)) uk dt
    (m.h (trialT dt tk) (trialQ m dt tk qk uk) uk)
    (forceN (m.W_N (trialT dt tk) (trialQ m dt tk qk uk))
      (activeSetN m dt tk qk uk) laN)
    (forceT (m.W_T (trialT dt tk) (trialQ m dt tk qk uk))
      (activeSetT m dt tk qk uk) laT)
    (m.chi_g (trialT dt tk) (trialQ m dt tk qk uk))
    (m.chi_gamma (trialT dt tk) (trialQ m dt tk qk uk))

/-- Line 64: the pre-loop direct solve `x = spsolve(A, b)`. -/
def directX (m : Model nq nu nlag nlagam nN nT) (ls : LinSolve nu nlag nlagam)
    (dt tk : ℚ) (qk : Vec nq) (uk : Vec nu) (laN : Vec nN) (laT : Vec nT) :
    KIdx nu nlag nlagam → ℚ :=
  ls (stepMatrix m dt tk qk uk) (stepRhs m dt tk qk uk laN laT)

/-- The loop context captured by `Moreau.step`: every model quantity is
evaluated exactly once, at the trial configuration `(tk1, qk1)`. -/
def stepCtx (m : Model nq nu nlag nlagam nN nT) (ls : LinSolve nu nlag nlagam)
    (dt tol tk : ℚ) (qk : Vec nq) (uk : Vec nu) :
    LoopCtx nq nu nlag nlagam nN nT :=
  { m := m, ls := ls, dt := dt, tol := tol,
    tk1 := trialT dt tk, qk1 := trialQ m dt tk qk uk, uk := uk,
    Mm := m.M (trialT dt tk) (trialQ m dt tk qk uk),
    hv := m.h (trialT dt tk) (trialQ m dt tk qk uk) uk,
    Wg := m.W_g (trialT dt tk) (trialQ m dt tk qk uk),
    Wgamma := m.W_gamma (trialT dt tk) (trialQ m dt tk qk uk),
    WN := m.W_N (trialT dt tk) (trialQ m dt tk qk uk),
    WT := m.W_T (trialT dt tk) (trialQ m dt tk qk uk),
    gdu := m.g_dot_u (trialT dt tk) (trialQ m dt tk qk uk),
    gau := m.gamma_u (trialT dt tk) (trialQ m dt tk qk uk),
    chig := m.chi_g (trialT dt tk) (trialQ m dt tk qk uk),
    chigam := m.chi_gamma (trialT dt tk) (trialQ m dt tk qk uk),
    IN := activeSetN m dt tk qk uk, IT := activeSetT m dt tk qk uk }

/-- The iteration state on entry to the fixed-point loop (lines 79-82): the
warm-start percussions and the direct-solve velocities and multipliers. -/
def initIterState (m : Model nq nu nlag nlagam nN nT) (ls : LinSolve nu nlag nlagam)
    (dt tk : ℚ) (qk : Vec nq) (uk : Vec nu) (laN : Vec nN) (laT : Vec nT) :
    IterState nu nlag nlagam nN nT :=
  { la_Nk0 := laN, la_Tk0 := laT, la_Nk1_i := laN, la_Tk1_i := laT,
    uk1 := fun a => directX m ls dt tk qk uk laN laT (Sum.inl a),
    la_gk1 := fun a => directX m ls dt tk qk uk laN laT (Sum.inr (Sum.inl a)),
    la_gammak1 := fun a => directX m ls dt tk qk uk laN laT (Sum.inr (Sum.inr a)) }

/-- The result of `Moreau.step` (line 114). -/
@[ext]
structure StepResult (nq nu nlag nlagam nN nT : ℕ) where
  converged : Bool
  j : ℕ
  error : ℚ
  tk1 : ℚ
  qk1 : Vec nq
  uk1 : Vec nu
  la_gk1 : Vec nlag
  la_gammak1 : Vec nlagam
  la_Nk1 : Vec nN
  la_Tk1 : Vec nT

/-- Packaging of the loop outputs with the (unchanged) `tk1, qk1` into the
step's return tuple (line 114). -/
def stepResultOfLoop (tk1 : ℚ) (qk1 : Vec nq) (out : LoopOut nu nlag nlagam nN nT) :
    StepResult nq nu nlag nlagam nN nT :=
  { converged := out.converged, j := out.j, error := out.error,
    tk1 := tk1, qk1 := qk1,
    uk1 := out.uk1, la_gk1 := out.la_gk1, la_gammak1 := out.la_gammak1,
    la_Nk1 := out.la_Nk1, la_Tk1 := out.la_Tk1 }

/-- `Moreau.step` (lines 31-114): full explicit position update, one direct
solve of the saddle-point system, then — only if some normal contact is
active (`np.any(I_N)`) — the prox fixed-point loop. -/
def step (m : Model nq nu nlag nlagam nN nT) (ls : LinSolve nu nlag nlagam)
    (dt tol : ℚ) (maxIter : ℕ) (tk : ℚ) (qk : Vec nq) (uk : Vec nu)
    (laN : Vec nN) (laT : Vec nT) : StepResult nq nu nlag nlagam nN nT :=
  if (activeList (activeSetN m dt tk qk uk)).isEmpty then
    { converged := true, j := 0, error := 0,
      tk1 := trialT dt tk, qk1 := trialQ m dt tk qk uk,
      uk1 := fun a => directX m ls dt tk qk uk laN laT (Sum.inl a),
      la_gk1 := fun a => directX m ls dt tk qk uk laN laT (Sum.inr (Sum.inl a)),
      la_gammak1 := fun a => directX m ls dt tk qk uk laN laT (Sum.inr (Sum.inr a)),
      la_Nk1 := 0, la_Tk1 := 0 }
  else
    stepResultOfLoop (trialT dt tk) (trialQ m dt tk qk uk)
      (loopGo (stepCtx m ls dt tol tk qk uk) maxIter 0 0
        (initIterState m ls dt tk qk uk laN laT))

/-- One accepted record of the solution trajectory built by `Moreau.solve`. -/
structure SolRecord (nq nu nlag nlagam nN nT : ℕ) where
  q : Vec nq
  u : Vec nu
  la_g : Vec nlag
  la_gamma : Vec nlagam
  la_N : Vec nN
  la_T : Vec nT

/-- Length of `np.arange(start, stop, step)` for a positive step. -/
def arangeLen (start stop step : ℚ) : ℕ :=
  (⌈(stop - start) / step⌉ : ℤ).toNat

/-- `np.arange(start, stop, step)`. -/
def arange (start stop step : ℚ) : List ℚ :=
  (List.range (arangeLen start stop step)).map fun k => start + (k : ℚ) * step

/-- The body of the `for tk in pbar` loop of `Moreau.solve` (lines 135-151):
one step per grid time; a non-converged step raises `RuntimeError` before the
step callback and before the result is appended. -/
def solveGo (m : Model nq nu nlag nlagam nN nT) (ls : LinSolve nu nlag nlagam)
    (dt tol : ℚ) (maxIter : ℕ) :
    List ℚ → Vec nq → Vec nu → Vec nN → Vec nT →
      Except String (List (SolRecord nq nu nlag nlagam nN nT))
  | [], _, _, _, _ => .ok []
  | tk :: rest, qk, uk, laN, laT =>
    let r := step m ls dt tol maxIter tk qk uk laN laT
    if r.converged then
      let cb := m.solver_step_callback r.tk1 r.qk1 r.uk1
      match solveGo m ls dt tol maxIter rest cb.1 cb.2 r.la_Nk1 r.la_Tk1 with
      | .ok l =>
        .ok (⟨cb.1, cb.2, r.la_gk1, r.la_gammak1, r.la_Nk1, r.la_Tk1⟩ :: l)
      | .error e => .error e
    else
      .error "RuntimeError: internal fixed point iteration not converged"

/-- `Moreau.solve` (lines 116-155): iterate over `self.t[:-1]`, starting from
the model's initial state; the head of the returned trajectory is the initial
record. -/
def solve (m : Model nq nu nlag nlagam nN nT) (ls : LinSolve nu nlag nlagam)
    (t1 dt tol : ℚ) (maxIter : ℕ) :
    Except String (List (SolRecord nq nu nlag nlagam nN nT)) :=
  match solveGo m ls dt tol maxIter ((arange m.t0 (t1 + dt) dt).dropLast)
    m.q0 m.u0 m.la_N0 m.la_T0 with
  | .ok l => .ok (⟨m.q0, m.u0, m.la_g0, m.la_gamma0, m.la_N0, m.la_T0⟩ :: l)
  | .error e => .error e

/-- A Python attribute slot that holds either a float or an un-raised
exception object: line 21 of `moreau.py` assigns `ValueError(...)` to
`self.t1` instead of raising it. -/
inductive PyAttr
  | val (x : ℚ)
  | exc (msg : String)

/-- Line 21: `self.t1 = t1 if t1 > t0 else
ValueError("t1 must be larger than initial time t0.")`. -/
def t1_attr (t0 t1 : ℚ) : PyAttr :=
  if t1 > t0 then .val t1 else .exc "t1 must be larger than initial time t0."

/-- Python `+` applied to the stored attribute and a float: raises a
`TypeError` when the left operand is the un-raised `ValueError` object. -/
def pyAdd : PyAttr → ℚ → Except String ℚ
  | .val x, y => .ok (x + y)
  | .exc _, _ =>
    .error "TypeError: unsupported operand type(s) for +: ValueError and float"

/-- The configuration `Moreau.__init__` stores: the only caller-facing
parameters are `model, t1, dt`; tolerance and iteration budget are the fixed
constants of lines 14-16, and there is no non-convergence policy flag. -/
structure Conf where
  t1 : ℚ
  dt : ℚ
  fix_point_tol : ℚ
  fix_point_max_iter : ℕ

/-- `Moreau.__init__` (lines 11-29): line 23 computes
`np.arange(t0, self.t1 + self.dt, self.dt)`, whose evaluation of
`self.t1 + self.dt` raises inside the constructor whenever `t1 ≤ t0`. -/
def construct (t0 t1 dt : ℚ) : Except String Conf :=
  match pyAdd (t1_attr t0 t1) dt with
  | .error e => .error e
  | .ok _ =>
    .ok { t1 := t1, dt := dt, fix_point_tol := 1 / 1000, fix_point_max_iter := 1000 }

end Moreau

/-- The subsystem kinematic contract consumed by the constraint elements:
initial time and coordinates, attachment-point position (with zero offset)
and body-frame orientation. -/
structure Subsystem (ns : ℕ) where
  t0 : ℚ
  q0 : Vec ns
  r_OS : ℚ → Vec ns → Fin 3 → ℚ
  A_IK : ℚ → Vec ns → Matrix (Fin 3) (Fin 3) ℚ

/-- Modelled from the spec: `subsystem.r_OP(t, q, frame_ID, K_r_SP)` with a
body-fixed offset, `r_OP = r_OS + A_IK @ K_r_SP` (spec 4.1: kinematics
"each accepting an optional body-fixed offset vector").  The implementing
subsystem classes and `cardillo/constraints/_base.py` are not under src/;
`src/cardillo/model/bilateral_constraints/implicit/RigidConnection.py`
builds its auxiliary functions from exactly this contract. -/
def Subsystem.r_OP {ns : ℕ} (s : Subsystem ns) (t : ℚ) (q : Vec ns)
    (K_r_SP : Fin 3 → ℚ) : Fin 3 → ℚ :=
  fun i => s.r_OS t q i + (s.A_IK t q).mulVec K_r_SP i

namespace RigidConnection

variable {n1 n2 : ℕ}

/-- `rigid_connection.py` line 31: `r_OP10 = subsystem1.r_OP(t0, q0, frame_ID1)`
(zero offset). -/
def r_OP10 (s1 : Subsystem n1) : Fin 3 → ℚ := s1.r_OP s1.t0 s1.q0 0

/-- Line 34: `r_OP20 = subsystem2.r_OP(t0, q0, frame_ID2)`. -/
def r_OP20 (s2 : Subsystem n2) : Fin 3 → ℚ := s2.r_OP s2.t0 s2.q0 0

/-- Lines 44-48: `A_IB0 = A_IK10; r_OB0 = r_OP10;
K1_r_P1B0 = A_IK10.T @ (r_OB0 - r_OP10)` — captured once at assembly. -/
def K1_r_P1B0 (s1 : Subsystem n1) : Fin 3 → ℚ :=
  (Matrix.transpose (s1.A_IK s1.t0 s1.q0)).mulVec (r_OP10 s1 - r_OP10 s1)

/-- Line 49: `K2_r_P2B0 = A_IK20.T @ (r_OB0 - r_OP20)` with `r_OB0 = r_OP10`. -/
def K2_r_P2B0 (s1 : Subsystem n1) (s2 : Subsystem n2) : Fin 3 → ℚ :=
  (Matrix.transpose (s2.A_IK s2.t0 s2.q0)).mulVec (r_OP10 s1 - r_OP20 s2)

/-- Line 51: `A_K1B0 = A_IK10.T @ A_IB0` with `A_IB0 = A_IK10`. -/
def A_K1B0 (s1 : Subsystem n1) : Matrix (Fin 3) (Fin 3) ℚ :=
  Matrix.transpose (s1.A_IK s1.t0 s1.q0) * s1.A_IK s1.t0 s1.q0

/-- Line 52: `A_K2B0 = A_IK20.T @ A_IB0`. -/
def A_K2B0 (s1 : Subsystem n1) (s2 : Subsystem n2) : Matrix (Fin 3) (Fin 3) ℚ :=
  Matrix.transpose (s2.A_IK s2.t0 s2.q0) * s1.A_IK s1.t0 s1.q0

/-- Auxiliary function `r_OB1(t, q) = subsystem1.r_OP(t, q1, frame_ID1,
K1_r_P1B0)` installed by `auxiliary_functions` at assembly. -/
def r_OB1 (s1 : Subsystem n1) (t : ℚ) (q1 : Vec n1) : Fin 3 → ℚ :=
  s1.r_OP t q1 (K1_r_P1B0 s1)

/-- Auxiliary function `r_OB2(t, q) = subsystem2.r_OP(t, q2, frame_ID2,
K2_r_P2B0)`. -/
def r_OB2 (s1 : Subsystem n1) (s2 : Subsystem n2) (t : ℚ) (q2 : Vec n2) :
    Fin 3 → ℚ :=
  s2.r_OP t q2 (K2_r_P2B0 s1 s2)

/-- Auxiliary function `A_IB1(t, q) = subsystem1.A_IK(t, q1) @ A_K1B0`. -/
def A_IB1 (s1 : Subsystem n1) (t : ℚ) (q1 : Vec n1) : Matrix (Fin 3) (Fin 3) ℚ :=
  s1.A_IK t q1 * A_K1B0 s1

/-- Auxiliary function `A_IB2(t, q) = subsystem2.A_IK(t, q2) @ A_K2B0`. -/
def A_IB2 (s1 : Subsystem n1) (s2 : Subsystem n2) (t : ℚ) (q2 : Vec n2) :
    Matrix (Fin 3) (Fin 3) ℚ :=
  s2.A_IK t q2 * A_K2B0 s1 s2

/-- Dot product of column `a` of `A_IB1` with column `b` of `A_IB2`
(the rows of `A_IB1.T`, `A_IB2.T` unpacked at lines 59-60). -/
def rollDot (s1 : Subsystem n1) (s2 : Subsystem n2) (t : ℚ) (q1 : Vec n1)
    (q2 : Vec n2) (a b : Fin 3) : ℚ :=
  ∑ k, A_IB1 s1 t q1 k a * A_IB2 s1 s2 t q2 k b

/-- `RigidConnection.g` (lines 56-62):
`np.concatenate([r_OB2 - r_OB1, [ex1 @ ey2, ey1 @ ez2, ez1 @ ex2]])` with
roll index pairs `((0,1), (1,2), (2,0))`. -/
def g (s1 : Subsystem n1) (s2 : Subsystem n2) (t : ℚ) (q1 : Vec n1)
    (q2 : Vec n2) : Fin 6 → ℚ :=
  ![r_OB2 s1 s2 t q2 0 - r_OB1 s1 t q1 0,
    r_OB2 s1 s2 t q2 1 - r_OB1 s1 t q1 1,
    r_OB2 s1 s2 t q2 2 - r_OB1 s1 t q1 2,
    rollDot s1 s2 t q1 q2 0 1,
    rollDot s1 s2 t q1 q2 1 2,
    rollDot s1 s2 t q1 q2 2 0]

end RigidConnection

/-- The (real-valued) kinematic contract `Rod` consumes: `rod.py` lines 44-46
bind `frame_ID` and the constant body-fixed offset `K_r_SP` into the closure
`r_OP1(t, q)`, so the attachment-point map is abstracted directly. -/
structure RodSubsystem (ns : ℕ) where
  t0 : ℝ
  q0 : Fin ns → ℝ
  r_OP : ℝ → (Fin ns → ℝ) → Fin 3 → ℝ

namespace Rod

variable {n1 n2 : ℕ}

/-- `rod.py` lines 82-88: the reference distance
`dist = np.linalg.norm(r_OP20 - r_OP10)` captured by `assembler_callback`
from the initial configuration. -/
noncomputable def dist (s1 : RodSubsystem n1) (s2 : RodSubsystem n2) : ℝ :=
  Real.sqrt (∑ i, (s2.r_OP s2.t0 s2.q0 i - s1.r_OP s1.t0 s1.q0 i) ^ 2)

/-- `Rod.g` (lines 92-95):
`(r_OP2 - r_OP1) @ (r_OP2 - r_OP1) - self.dist ** 2`. -/
noncomputable def g (s1 : RodSubsystem n1) (s2 : RodSubsystem n2) (t : ℝ)
    (q1 : Fin n1 → ℝ) (q2 : Fin n2 → ℝ) : ℝ :=
  (∑ i, (s2.r_OP t q2 i - s1.r_OP t q1 i) * (s2.r_OP t q2 i - s1.r_OP t q1 i))
    - dist s1 s2 ^ 2

end Rod

namespace RigidBodyQuaternion

/-- The quaternion slice `q[3:]` of the 7-dimensional coordinate vector. -/
def quatPart (q : Fin 7 → ℝ) : Fin 4 → ℝ := fun j => q (j.addNat 3)

/-- Modelled from the spec: `cardillo.math.norm` (not under src/) — the
Euclidean norm of a vector. -/
noncomputable def pynorm {n : ℕ} (v : Fin n → ℝ) : ℝ :=
  Real.sqrt (∑ i, v i ^ 2)

/-- `rigid_body_quaternion.py` lines 110-112:
`q[3:] = q[3:] / norm(q[3:]); return q, u`. -/
noncomputable def step_callback (t : ℝ) (q : Fin 7 → ℝ) (u : Fin 6 → ℝ) :
    (Fin 7 → ℝ) × (Fin 6 → ℝ) :=
  (fun i => if 3 ≤ (i : ℕ) then q i / pynorm (quatPart q) else q i, u)

/-- Lines 53-55: `g_S = [P @ P - 1.0]` with `P = q[3:]`. -/
noncomputable def g_S (t : ℝ) (q : Fin 7 → ℝ) : Fin 1 → ℝ :=
  fun _ => (∑ j, quatPart q j * quatPart q j) - 1

end RigidBodyQuaternion

/-!  ## Concrete instances used by witnesses and counterexamples  -/

/-- A concrete instantiation of the abstract sparse solver: entrywise
division by the diagonal, which solves the (diagonal) linear systems of the
one-dof example models below exactly. -/
def diagSolve {nu nlag nlagam : ℕ} : LinSolve nu nlag nlagam :=
  fun A b i => b i / A i i

/-- A one-dof model: free particle of unit mass under constant unit force,
no bilateral constraints, no contacts (`q_dot(t, q, u) = u`). -/
def ballisticModel : Model 1 1 0 0 0 0 where
  t0 := 0
  q0 := 0
  u0 := fun _ => 1
  la_g0 := 0
  la_gamma0 := 0
  la_N0 := 0
  la_T0 := 0
  q_dot := fun _ _ u => u
  M := fun _ _ => 1
  h := fun _ _ _ => fun _ => 1
  W_g := fun _ _ => 0
  W_gamma := fun _ _ => 0
  W_N := fun _ _ => 0
  W_T := fun _ _ => 0
  g_dot_u := fun _ _ => 0
  chi_g := fun _ _ => 0
  gamma_u := fun _ _ => 0
  chi_gamma := fun _ _ => 0
  g_N := fun _ _ => 0
  NT_connectivity := fun i => i.elim0
  contact_force_fixpoint_update := fun _ _ _ _ laN laT _ => (laN, laT)
  solver_step_callback := fun _ q u => (q, u)

/-- A one-dof model with one bilateral constraint whose direction matrix is
`W_g = [[2]]` and `g_dot_u = W_g^T = [[2]]`, no contacts. -/
def constrainedModel : Model 1 1 1 0 0 0 where
  t0 := 0
  q0 := 0
  u0 := 0
  la_g0 := 0
  la_gamma0 := 0
  la_N0 := 0
  la_T0 := 0
  q_dot := fun _ _ u => u
  M := fun _ _ => 1
  h := fun _ _ _ => 0
  W_g := fun _ _ => Matrix.of fun _ _ => 2
  W_gamma := fun _ _ => 0
  W_N := fun _ _ => 0
  W_T := fun _ _ => 0
  g_dot_u := fun _ _ => Matrix.of fun _ _ => 2
  chi_g := fun _ _ => 0
  gamma_u := fun _ _ => 0
  chi_gamma := fun _ _ => 0
  g_N := fun _ _ => 0
  NT_connectivity := fun i => i.elim0
  contact_force_fixpoint_update := fun _ _ _ _ laN laT _ => (laN, laT)
  solver_step_callback := fun _ q u => (q, u)

/-- A one-dof model with one contact candidate that is strictly separated
(`g_N = 1 > 0` everywhere) and one friction component attached to it. -/
def separatedModel : Model 1 1 0 0 1 1 where
  t0 := 0
  q0 := 0
  u0 := 0
  la_g0 := 0
  la_gamma0 := 0
  la_N0 := 0
  la_T0 := 0
  q_dot := fun _ _ u => u
  M := fun _ _ => 1
  h := fun _ _ _ => 0
  W_g := fun _ _ => 0
  W_gamma := fun _ _ => 0
  W_N := fun _ _ => Matrix.of fun _ _ => 3
  W_T := fun _ _ => Matrix.of fun _ _ => 3
  g_dot_u := fun _ _ => 0
  chi_g := fun _ _ => 0
  gamma_u := fun _ _ => 0
  chi_gamma := fun _ _ => 0
  g_N := fun _ _ => fun _ => 1
  NT_connectivity := fun _ => [0]
  contact_force_fixpoint_update := fun _ _ _ _ laN laT _ => (laN, laT)
  solver_step_callback := fun _ q u => (q, u)

/-- A one-dof model with one touching contact (`g_N = -1 ≤ 0`) whose
fixed-point update is the identity, so the percussion residual vanishes at
the first iteration. -/
def touchModel : Model 1 1 0 0 1 1 where
  t0 := 0
  q0 := 0
  u0 := 0
  la_g0 := 0
  la_gamma0 := 0
  la_N0 := 0
  la_T0 := 0
  q_dot := fun _ _ u => u
  M := fun _ _ => 1
  h := fun _ _ _ => 0
  W_g := fun _ _ => 0
  W_gamma := fun _ _ => 0
  W_N := fun _ _ => 0
  W_T := fun _ _ => 0
  g_dot_u := fun _ _ => 0
  chi_g := fun _ _ => 0
  gamma_u := fun _ _ => 0
  chi_gamma := fun _ _ => 0
  g_N := fun _ _ => fun _ => -1
  NT_connectivity := fun _ => [0]
  contact_force_fixpoint_update := fun _ _ _ _ laN laT _ => (laN, laT)
  solver_step_callback := fun _ q u => (q, u)

/-- A one-dof model with one touching contact (`g_N = -1`), zero contact
direction matrix, and a fixed-point update that increments the normal
percussion by one every iteration, so the percussion residual is constantly
`1` and the loop can never converge — while the trial velocities never
change. -/
def divergingModel : Model 1 1 0 0 1 0 where
  t0 := 0
  q0 := 0
  u0 := 0
  la_g0 := 0
  la_gamma0 := 0
  la_N0 := 0
  la_T0 := 0
  q_dot := fun _ _ u => u
  M := fun _ _ => 1
  h := fun _ _ _ => 0
  W_g := fun _ _ => 0
  W_gamma := fun _ _ => 0
  W_N := fun _ _ => 0
  W_T := fun _ _ => 0
  g_dot_u := fun _ _ => 0
  chi_g := fun _ _ => 0
  gamma_u := fun _ _ => 0
  chi_gamma := fun _ _ => 0
  g_N := fun _ _ => fun _ => -1
  NT_connectivity := fun _ => []
  contact_force_fixpoint_update := fun _ _ _ _ laN laT _ => (fun i => laN i + 1, laT)
  solver_step_callback := fun _ q u => (q, u)

/-- Modelled from the spec (refinement comparison for claim C1 only): the
half-step position predictor `q_{n+1/2} = q_n + 0.5*dt*q_dot(t_n, q_n, u_n)`. -/
def specHalfStepQ (m : Model nq nu nlag nlagam nN nT) (dt tk : ℚ) (qk : Vec nq)
    (uk : Vec nu) : Vec nq :=
  fun i => qk i + 1 / 2 * dt * m.q_dot tk qk uk i

/-- Modelled from the spec (refinement comparison for claim C1 only): the
second half-step update
`q_{n+1} = q_{n+1/2} + 0.5*dt*q_dot(t_{n+1/2}, q_{n+1/2}, u_{n+1})`. -/
def specSecondHalfStepQ (m : Model nq nu nlag nlagam nN nT) (dt tk : ℚ)
    (qk : Vec nq) (uk : Vec nu) (u1 : Vec nu) : Vec nq :=
  fun i => specHalfStepQ m dt tk qk uk i
    + 1 / 2 * dt * m.q_dot (tk + 1 / 2 * dt) (specHalfStepQ m dt tk qk uk) u1 i

/-!  ## Claim theorems  -/

/-- The position output of `Moreau.step` is the full explicit step `trialQ`,
in both the contact-free and the contact branch (helper lemma). -/
theorem step_qk1_eq_trialQ (m : Model nq nu nlag nlagam nN nT)
    (ls : LinSolve nu nlag nlagam) (dt tol : ℚ) (maxIter : ℕ) (tk : ℚ)
    (qk : Vec nq) (uk : Vec nu) (laN : Vec nN) (laT : Vec nT) :
    (Moreau.step m ls dt tol maxIter tk qk uk laN laT).qk1
      = Moreau.trialQ m dt tk qk uk := by
  unfold Moreau.step
  split <;> rfl

/-- Evaluation of the ballistic example: the right-hand side of the step's
linear system in the velocity row is `M*u0 + dt*h = 2`. -/
theorem ballistic_rhs_eval (a : Fin 1) :
    Moreau.stepRhs ballisticModel 1 0 (0 : Vec 1) (fun _ => 1) 0 0 (Sum.inl a) = 2 := by
  simp [Moreau.stepRhs, assembleB, forceN, forceT, activeList, Moreau.activeSetT,
    Moreau.activeSetN, List.finRange_zero, ballisticModel, Matrix.one_mulVec]
  norm_num

/-- Evaluation of the ballistic example: the velocity block of the step
matrix is `M = 1`. -/
theorem ballistic_matrix_eval (a b : Fin 1) :
    Moreau.stepMatrix ballisticModel 1 0 (0 : Vec 1) (fun _ => 1)
      (Sum.inl a) (Sum.inl b) = 1 := by
  have ha : a = 0 := Subsingleton.elim a 0
  have hb : b = 0 := Subsingleton.elim b 0
  subst ha hb
  simp [Moreau.stepMatrix, assembleA, ballisticModel]

/-- Evaluation of the ballistic example: the solved velocity is `2`. -/
theorem ballistic_uk1_eval :
    (Moreau.step ballisticModel diagSolve 1 (1 / 1000) 1000 0 (0 : Vec 1)
        (fun _ => 1) 0 0).uk1 = fun _ => 2 := by
  funext a
  have ha : a = 0 := Subsingleton.elim a 0
  subst ha
  have hstep : (Moreau.step ballisticModel diagSolve 1 (1 / 1000) 1000 0 (0 : Vec 1)
      (fun _ => 1) 0 0).uk1 0
      = Moreau.directX ballisticModel diagSolve 1 0 (0 : Vec 1) (fun _ => 1) 0 0
          (Sum.inl 0) := by
    unfold Moreau.step
    rw [if_pos]
    simp [activeList, List.finRange_zero]
  rw [hstep]
  unfold Moreau.directX diagSolve
  rw [ballistic_rhs_eval 0, ballistic_matrix_eval 0 0]
  norm_num

/-- C1 counterexample: for the one-dof ballistic model with `dt = 1`,
`q0 = 0`, `u0 = 1`, the diagonal solver solves the step's linear system
exactly (first conjunct), yet the configuration returned by `Moreau.step`
(the full explicit step, value `1`) differs from the spec's two-half-step
value `q_{n+1/2} + 0.5*dt*q_dot(t_{n+1/2}, q_{n+1/2}, u_{n+1})` (value
`3/2`) computed with the step's own returned velocity `u_{n+1} = 2`. -/
theorem moreau_step_no_half_step_counterexample :
    (Moreau.stepMatrix ballisticModel 1 0 (0 : Vec 1) (fun _ => 1)).mulVec
        (Moreau.directX ballisticModel diagSolve 1 0 (0 : Vec 1) (fun _ => 1) 0 0)
      = Moreau.stepRhs ballisticModel 1 0 (0 : Vec 1) (fun _ => 1) 0 0 ∧
    (Moreau.step ballisticModel diagSolve 1 (1 / 1000) 1000 0 (0 : Vec 1)
        (fun _ => 1) 0 0).qk1
      ≠ specSecondHalfStepQ ballisticModel 1 0 (0 : Vec 1) (fun _ => 1)
          (Moreau.step ballisticModel diagSolve 1 (1 / 1000) 1000 0 (0 : Vec 1)
            (fun _ => 1) 0 0).uk1 := by
  constructor
  · funext idx
    match idx with
    | Sum.inl a =>
      have ha : a = 0 := Subsingleton.elim a 0
      subst ha
      rw [ballistic_rhs_eval 0]
      rw [show (Moreau.stepMatrix ballisticModel 1 0 (0 : Vec 1) (fun _ => 1)).mulVec
            (Moreau.directX ballisticModel diagSolve 1 0 (0 : Vec 1) (fun _ => 1) 0 0)
            (Sum.inl 0)
          = ∑ j, Moreau.stepMatrix ballisticModel 1 0 (0 : Vec 1) (fun _ => 1)
              (Sum.inl 0) j
              * Moreau.directX ballisticModel diagSolve 1 0 (0 : Vec 1)
                  (fun _ => 1) 0 0 j from rfl]
      rw [Fintype.sum_sum_type]
      rw [show (∑ a : Fin 0 ⊕ Fin 0, Moreau.stepMatrix ballisticModel 1 0 (0 : Vec 1)
            (fun _ => 1) (Sum.inl 0) (Sum.inr a)
            * Moreau.directX ballisticModel diagSolve 1 0 (0 : Vec 1) (fun _ => 1) 0 0
                (Sum.inr a)) = 0 by
        rw [Fintype.sum_sum_type]
        simp]
      rw [Fin.sum_univ_one, ballistic_matrix_eval 0 0]
      unfold Moreau.directX diagSolve
      rw [ballistic_rhs_eval 0, ballistic_matrix_eval 0 0]
      norm_num
    | Sum.inr (Sum.inl b) => exact b.elim0
    | Sum.inr (Sum.inr b) => exact b.elim0
  · intro hcontra
    have h0 := congrFun hcontra 0
    rw [step_qk1_eq_trialQ, ballistic_uk1_eval] at h0
    simp [Moreau.trialQ, specSecondHalfStepQ, specHalfStepQ, ballisticModel] at h0

/-- C1 (amended): in every time step of the Moreau integrator the position
coordinates are advanced in a single full explicit step
`q_{n+1} = q_n + dt*q_dot(t_n, q_n, u_n)` computed before the linear solve;
no further position update is applied after the velocity solve, so the
returned configuration does not depend on the linear solver (hence not on
the newly computed velocity `u_{n+1}`) nor on the warm-start percussions. -/
theorem moreau_step_position_single_full_step
    (m : Model nq nu nlag nlagam nN nT) (ls ls' : LinSolve nu nlag nlagam)
    (dt tol : ℚ) (maxIter : ℕ) (tk : ℚ) (qk : Vec nq) (uk : Vec nu)
    (laN laN' : Vec nN) (laT laT' : Vec nT) :
    (Moreau.step m ls dt tol maxIter tk qk uk laN laT).qk1
        = Moreau.trialQ m dt tk qk uk ∧
    (Moreau.step m ls dt tol maxIter tk qk uk laN laT).qk1
        = (Moreau.step m ls' dt tol maxIter tk qk uk laN' laT').qk1 := by
  have h : ∀ (ls₀ : LinSolve nu nlag nlagam) (laN₀ : Vec nN) (laT₀ : Vec nT),
      (Moreau.step m ls₀ dt tol maxIter tk qk uk laN₀ laT₀).qk1
        = Moreau.trialQ m dt tk qk uk := by
    intro ls₀ laN₀ laT₀
    unfold Moreau.step
    split <;> rfl
  exact ⟨h ls laN laT, (h ls laN laT).trans (h ls' laN' laT').symm⟩

/-- C2: the active-set flag of `Moreau.step` is `I_N[i] = true` iff the
normal gap at the step's trial configuration `(tk1, qk1)` is `≤ 0`, and the
flattened friction index list `I_T` contains exactly the connectivity-table
entries of the active normal contacts. -/
theorem moreau_active_set_characterization
    (m : Model nq nu nlag nlagam nN nT) (dt tk : ℚ) (qk : Vec nq) (uk : Vec nu) :
    (∀ i, Moreau.activeSetN m dt tk qk uk i = true ↔
      m.g_N (Moreau.trialT dt tk) (Moreau.trialQ m dt tk qk uk) i ≤ 0) ∧
    (∀ tj : Fin nT, tj ∈ Moreau.activeSetT m dt tk qk uk ↔
      ∃ i, Moreau.activeSetN m dt tk qk uk i = true ∧ tj ∈ m.NT_connectivity i) := by
  constructor
  · intro i
    simp [Moreau.activeSetN]
  · intro tj
    simp only [Moreau.activeSetT, activeList, List.mem_flatMap, List.mem_filter,
      List.mem_finRange, true_and]

/-- C3 counterexample: for the one-dof constrained model with `dt = 1/2`,
`W_g = [[2]]` and `g_dot_u = W_g^T`, the matrix `Moreau.step` assembles is
neither the spec's saddle-point operator
`[[M, -W_g, -W_gamma], [-W_g^T, 0, 0], [-W_gamma^T, 0, 0]]` (the code scales
the upper-right blocks by `dt` and puts `+g_dot_u`, `+gamma_u` in the lower
rows) nor symmetric. -/
theorem moreau_step_matrix_not_spec_operator_counterexample :
    Moreau.stepMatrix constrainedModel (1 / 2) 0 (0 : Vec 1) (0 : Vec 1)
      ≠ specOperatorA
          (constrainedModel.M (Moreau.trialT (1 / 2) 0)
            (Moreau.trialQ constrainedModel (1 / 2) 0 0 0))
          (constrainedModel.W_g (Moreau.trialT (1 / 2) 0)
            (Moreau.trialQ constrainedModel (1 / 2) 0 0 0))
          (constrainedModel.W_gamma (Moreau.trialT (1 / 2) 0)
            (Moreau.trialQ constrainedModel (1 / 2) 0 0 0)) ∧
    Moreau.stepMatrix constrainedModel (1 / 2) 0 (0 : Vec 1) (0 : Vec 1)
      ≠ Matrix.transpose
          (Moreau.stepMatrix constrainedModel (1 / 2) 0 (0 : Vec 1) (0 : Vec 1)) := by
  have hcode : Moreau.stepMatrix constrainedModel (1 / 2) 0 (0 : Vec 1) (0 : Vec 1)
      (Sum.inl 0) (Sum.inr (Sum.inl 0)) = -(1 / 2) * 2 := by
    simp [Moreau.stepMatrix, assembleA, constrainedModel]
  have hlower : Moreau.stepMatrix constrainedModel (1 / 2) 0 (0 : Vec 1) (0 : Vec 1)
      (Sum.inr (Sum.inl 0)) (Sum.inl 0) = 2 := by
    simp [Moreau.stepMatrix, assembleA, constrainedModel]
  have hspec : specOperatorA
      (constrainedModel.M (Moreau.trialT (1 / 2) 0)
        (Moreau.trialQ constrainedModel (1 / 2) 0 0 0))
      (constrainedModel.W_g (Moreau.trialT (1 / 2) 0)
        (Moreau.trialQ constrainedModel (1 / 2) 0 0 0))
      (constrainedModel.W_gamma (Moreau.trialT (1 / 2) 0)
        (Moreau.trialQ constrainedModel (1 / 2) 0 0 0))
      (Sum.inl 0) (Sum.inr (Sum.inl 0)) = -2 := by
    simp [specOperatorA, constrainedModel]
  constructor
  · intro hcontra
    have h0 := congrFun (congrFun hcontra (Sum.inl 0)) (Sum.inr (Sum.inl 0))
    rw [hcode, hspec] at h0
    norm_num at h0
  · intro hcontra
    have h0 := congrFun (congrFun hcontra (Sum.inl 0)) (Sum.inr (Sum.inl 0))
    rw [hcode] at h0
    rw [show Matrix.transpose
        (Moreau.stepMatrix constrainedModel (1 / 2) 0 (0 : Vec 1) (0 : Vec 1))
        (Sum.inl 0) (Sum.inr (Sum.inl 0))
        = Moreau.stepMatrix constrainedModel (1 / 2) 0 (0 : Vec 1) (0 : Vec 1)
            (Sum.inr (Sum.inl 0)) (Sum.inl 0) from rfl, hlower] at h0
    norm_num at h0

/-- C3 (amended): the linear-system operator of one Moreau step is the
(non-symmetric) block matrix
`[[M, -dt*W_g, -dt*W_gamma], [g_dot_u, 0, 0], [gamma_u, 0, 0]]` with every
block evaluated once at the trial configuration `(tk1, qk1)` (first five
conjuncts), and the system solved in every fixed-point iteration uses
exactly the matrix assembled before the loop — only the right-hand side
changes with the contact percussions (last conjunct). -/
theorem moreau_step_matrix_structure_and_constancy
    (m : Model nq nu nlag nlagam nN nT) (ls : LinSolve nu nlag nlagam)
    (dt tol tk : ℚ) (qk : Vec nq) (uk : Vec nu) :
    (∀ a b, Moreau.stepMatrix m dt tk qk uk (Sum.inl a) (Sum.inl b)
      = m.M (Moreau.trialT dt tk) (Moreau.trialQ m dt tk qk uk) a b) ∧
    (∀ a b, Moreau.stepMatrix m dt tk qk uk (Sum.inl a) (Sum.inr (Sum.inl b))
      = -dt * m.W_g (Moreau.trialT dt tk) (Moreau.trialQ m dt tk qk uk) a b) ∧
    (∀ a b, Moreau.stepMatrix m dt tk qk uk (Sum.inl a) (Sum.inr (Sum.inr b))
      = -dt * m.W_gamma (Moreau.trialT dt tk) (Moreau.trialQ m dt tk qk uk) a b) ∧
    (∀ a b, Moreau.stepMatrix m dt tk qk uk (Sum.inr (Sum.inl a)) (Sum.inl b)
      = m.g_dot_u (Moreau.trialT dt tk) (Moreau.trialQ m dt tk qk uk) a b) ∧
    (∀ a b, Moreau.stepMatrix m dt tk qk uk (Sum.inr (Sum.inr a)) (Sum.inl b)
      = m.gamma_u (Moreau.trialT dt tk) (Moreau.trialQ m dt tk qk uk) a b) ∧
    (∀ a b, Moreau.stepMatrix m dt tk qk uk (Sum.inr a) (Sum.inr b) = 0) ∧
    (∀ laN laT, loopSolve (Moreau.stepCtx m ls dt tol tk qk uk) laN laT
      = ls (Moreau.stepMatrix m dt tk qk uk)
          (assembleB (m.M (Moreau.trialT dt tk) (Moreau.trialQ m dt tk qk uk)) uk dt
            (m.h (Moreau.trialT dt tk) (Moreau.trialQ m dt tk qk uk) uk)
            (forceN (m.W_N (Moreau.trialT dt tk) (Moreau.trialQ m dt tk qk uk))
              (Moreau.activeSetN m dt tk qk uk) laN)
            (forceT (m.W_T (Moreau.trialT dt tk) (Moreau.trialQ m dt tk qk uk))
              (Moreau.activeSetT m dt tk qk uk) laT)
            (m.chi_g (Moreau.trialT dt tk) (Moreau.trialQ m dt tk qk uk))
            (m.chi_gamma (Moreau.trialT dt tk) (Moreau.trialQ m dt tk qk uk)))) := by
  refine ⟨fun a b => rfl, fun a b => rfl, fun a b => rfl, fun a b => rfl,
    fun a b => rfl, fun a b => ?_, fun laN laT => rfl⟩
  cases a <;> cases b <;> rfl

/-- C5: constructing `Moreau` with `t1 ≤ t0` raises inside `__init__`:
line 21 stores an un-raised `ValueError` in `self.t1`, and line 23
(`np.arange(t0, self.t1 + self.dt, self.dt)`) then raises a `TypeError`
when adding `self.dt` to it — so construction fails before any stepping. -/
theorem moreau_construct_fails_for_nonpositive_horizon (t0 t1 dt : ℚ)
    (h : t1 ≤ t0) :
    Moreau.construct t0 t1 dt =
      .error "TypeError: unsupported operand type(s) for +: ValueError and float" := by
  unfold Moreau.construct Moreau.t1_attr
  rw [if_neg (not_lt.mpr h)]
  rfl

/-- Witness for C5 at `t0 = 0, t1 = 0, dt = 1/100`. -/
theorem moreau_construct_fails_for_nonpositive_horizon_witness :
    (0 : ℚ) ≤ 0 ∧
    Moreau.construct 0 0 (1 / 100) =
      .error "TypeError: unsupported operand type(s) for +: ValueError and float" :=
  ⟨le_refl 0, moreau_construct_fails_for_nonpositive_horizon 0 0 (1 / 100) (le_refl 0)⟩

/-!  ## Fixed-point loop characterization (helper lemmas)  -/

theorem loopState_zero (c : LoopCtx nq nu nlag nlagam nN nT)
    (st : IterState nu nlag nlagam nN nT) : loopState c st 0 = st := rfl

theorem loopState_succ_shift (c : LoopCtx nq nu nlag nlagam nN nT)
    (st : IterState nu nlag nlagam nN nT) (k : ℕ) :
    loopState c st (k + 1) = loopState c (nextState c st) k :=
  Function.iterate_succ_apply _ _ _

/-- One-iteration unfolding of the fixed-point loop. -/
theorem loopGo_succ (c : LoopCtx nq nu nlag nlagam nN nT) (fuel j : ℕ)
    (err : ℚ) (st : IterState nu nlag nlagam nN nT) :
    loopGo c (fuel + 1) j err st =
      if iterError c st < c.tol then
        ⟨true, j, iterError c st, st.uk1, st.la_gk1, st.la_gammak1,
          maskN c.IN (loopUpdate c st).1, maskT c.IT (loopUpdate c st).2⟩
      else loopGo c fuel (j + 1) (iterError c st) (nextState c st) := rfl

/-- If the percussion-residual error first drops below the tolerance at
iteration `k < fuel`, the loop breaks there: it reports convergence with
iteration counter `j + k` and that error value, returns the velocities and
bilateral multipliers of the solve preceding the test, and freezes the
updated contact percussions restricted to the active sets. -/
theorem loopGo_first_convergence (c : LoopCtx nq nu nlag nlagam nN nT)
    (fuel : ℕ) :
    ∀ (k j : ℕ) (err : ℚ) (st : IterState nu nlag nlagam nN nT),
      k < fuel →
      iterError c (loopState c st k) < c.tol →
      (∀ l, l < k → ¬ iterError c (loopState c st l) < c.tol) →
      loopGo c fuel j err st =
        ⟨true, j + k, iterError c (loopState c st k),
          (loopState c st k).uk1, (loopState c st k).la_gk1,
          (loopState c st k).la_gammak1,
          maskN c.IN (loopUpdate c (loopState c st k)).1,
          maskT c.IT (loopUpdate c (loopState c st k)).2⟩ := by
  induction fuel with
  | zero =>
    intro k j err st hk _ _
    exact absurd hk (Nat.not_lt_zero k)
  | succ n ih =>
    intro k j err st hk hconv hmin
    rw [loopGo_succ]
    cases k with
    | zero =>
      have hconv0 : iterError c st < c.tol := hconv
      rw [if_pos hconv0]
      rfl
    | succ k' =>
      have h0 : ¬ iterError c st < c.tol := hmin 0 (Nat.succ_pos k')
      rw [if_neg h0]
      have hrec := ih k' (j + 1) (iterError c st) (nextState c st)
        (Nat.lt_of_succ_lt_succ hk) hconv (fun l hl => hmin (l + 1) (Nat.succ_lt_succ hl))
      have harith : j + 1 + k' = j + (k' + 1) := by omega
      rw [harith] at hrec
      exact hrec

/-- If the percussion-residual error never drops below the tolerance in
`fuel` iterations, the loop exhausts its budget: it reports non-convergence
with iteration counter `j + fuel - 1` and the error of the final iteration,
returns the final re-solved velocities and multipliers, and leaves the
output contact percussions at zero. -/
theorem loopGo_exhaustion (c : LoopCtx nq nu nlag nlagam nN nT) (fuel : ℕ) :
    ∀ (j : ℕ) (err : ℚ) (st : IterState nu nlag nlagam nN nT),
      (∀ l, l < fuel → ¬ iterError c (loopState c st l) < c.tol) →
      loopGo c fuel j err st =
        ⟨false, j + fuel - 1,
          (if fuel = 0 then err else iterError c (loopState c st (fuel - 1))),
          (loopState c st fuel).uk1, (loopState c st fuel).la_gk1,
          (loopState c st fuel).la_gammak1, 0, 0⟩ := by
  induction fuel with
  | zero =>
    intro j err st _
    rfl
  | succ n ih =>
    intro j err st hmin
    have h0 : ¬ iterError c st < c.tol := hmin 0 (Nat.succ_pos n)
    rw [loopGo_succ, if_neg h0]
    have hrec := ih (j + 1) (iterError c st) (nextState c st)
      (fun l hl => hmin (l + 1) (Nat.succ_lt_succ hl))
    rw [hrec]
    cases n with
    | zero => rfl
    | succ n' =>
      have hj : j + 1 + (n' + 1) - 1 = j + (n' + 1 + 1) - 1 := by omega
      rw [hj]
      rfl

/-- The contact-percussion outputs of the loop: zero off the active sets,
and entirely zero when the loop ends without convergence. -/
theorem loopGo_la_masked (c : LoopCtx nq nu nlag nlagam nN nT) (fuel : ℕ) :
    ∀ (j : ℕ) (err : ℚ) (st : IterState nu nlag nlagam nN nT),
      ((loopGo c fuel j err st).converged = false →
        (loopGo c fuel j err st).la_Nk1 = 0 ∧ (loopGo c fuel j err st).la_Tk1 = 0) ∧
      (∀ i, c.IN i = false → (loopGo c fuel j err st).la_Nk1 i = 0) ∧
      (∀ t, t ∉ c.IT → (loopGo c fuel j err st).la_Tk1 t = 0) := by
  induction fuel with
  | zero =>
    intro j err st
    exact ⟨fun _ => ⟨rfl, rfl⟩, fun i _ => rfl, fun t _ => rfl⟩
  | succ n ih =>
    intro j err st
    by_cases hcv : iterError c st < c.tol
    · rw [loopGo_succ, if_pos hcv]
      refine ⟨fun hfalse => Bool.noConfusion hfalse, fun i hi => ?_, fun t ht => ?_⟩
      · simp [maskN, hi]
      · simp [maskT, ht]
    · rw [loopGo_succ, if_neg hcv]
      exact ih (j + 1) (iterError c st) (nextState c st)

/-- C6: if every candidate contact is strictly separated at the trial
configuration, one Moreau step returns the identical result (all fields:
time, configuration, velocities, bilateral multipliers, contact percussions)
for arbitrary warm-start percussions, and the prox loop is skipped: the step
is the direct solve with `converged = true`, `j = 0`, `error = 0`. -/
theorem moreau_step_warm_start_independence
    (m : Model nq nu nlag nlagam nN nT) (ls : LinSolve nu nlag nlagam)
    (dt tol : ℚ) (maxIter : ℕ) (tk : ℚ) (qk : Vec nq) (uk : Vec nu)
    (laN laN' : Vec nN) (laT laT' : Vec nT)
    (hsep : ∀ i, ¬ m.g_N (Moreau.trialT dt tk) (Moreau.trialQ m dt tk qk uk) i ≤ 0) :
    Moreau.step m ls dt tol maxIter tk qk uk laN laT
      = Moreau.step m ls dt tol maxIter tk qk uk laN' laT' ∧
    (Moreau.step m ls dt tol maxIter tk qk uk laN laT).converged = true ∧
    (Moreau.step m ls dt tol maxIter tk qk uk laN laT).j = 0 ∧
    (Moreau.step m ls dt tol maxIter tk qk uk laN laT).error = 0 := by
  have hempty : activeList (Moreau.activeSetN m dt tk qk uk) = [] := by
    refine List.filter_eq_nil_iff.mpr ?_
    intro i _
    simp [Moreau.activeSetN, hsep i]
  have hisEmpty : (activeList (Moreau.activeSetN m dt tk qk uk)).isEmpty = true := by
    rw [hempty]
    rfl
  have hrhs : Moreau.stepRhs m dt tk qk uk laN laT
      = Moreau.stepRhs m dt tk qk uk laN' laT' := by
    funext idx
    cases idx with
    | inl a =>
      show _ + forceN _ _ laN a + forceT _ _ laT a
        = _ + forceN _ _ laN' a + forceT _ _ laT' a
      simp [forceN, forceT, hempty, Moreau.activeSetT]
    | inr b => cases b <;> rfl
  refine ⟨?_, ?_, ?_, ?_⟩
  · unfold Moreau.step
    rw [if_pos hisEmpty, if_pos hisEmpty]
    unfold Moreau.directX
    rw [hrhs]
  · unfold Moreau.step
    rw [if_pos hisEmpty]
  · unfold Moreau.step
    rw [if_pos hisEmpty]
  · unfold Moreau.step
    rw [if_pos hisEmpty]

/-- Witness for C6: the separated one-contact model, warm-started with
`la_N = 5, la_T = 7` versus cold-started with zeros. -/
theorem moreau_step_warm_start_independence_witness :
    Moreau.step separatedModel diagSolve 1 (1 / 1000) 1000 0 (0 : Vec 1) (0 : Vec 1)
        (fun _ => 5) (fun _ => 7)
      = Moreau.step separatedModel diagSolve 1 (1 / 1000) 1000 0 (0 : Vec 1) (0 : Vec 1)
          0 0 ∧
    (Moreau.step separatedModel diagSolve 1 (1 / 1000) 1000 0 (0 : Vec 1) (0 : Vec 1)
        (fun _ => 5) (fun _ => 7)).converged = true :=
  have h := moreau_step_warm_start_independence separatedModel diagSolve 1 (1 / 1000)
    1000 0 (0 : Vec 1) (0 : Vec 1) (fun _ => 5) 0 (fun _ => 7) 0
    (fun i => show ¬ (1 : ℚ) ≤ 0 by norm_num)
  ⟨h.1, h.2.1⟩

/-- C9: the contact percussions returned by `Moreau.step` vanish at every
index outside the active sets `I_N`, `I_T`, and whenever the step ends
without convergence (any iteration budget, including zero) the returned
contact percussion vectors are entirely zero. -/
theorem moreau_step_percussion_masking
    (m : Model nq nu nlag nlagam nN nT) (ls : LinSolve nu nlag nlagam)
    (dt tol : ℚ) (maxIter : ℕ) (tk : ℚ) (qk : Vec nq) (uk : Vec nu)
    (laN : Vec nN) (laT : Vec nT) :
    (∀ i, Moreau.activeSetN m dt tk qk uk i = false →
      (Moreau.step m ls dt tol maxIter tk qk uk laN laT).la_Nk1 i = 0) ∧
    (∀ t, t ∉ Moreau.activeSetT m dt tk qk uk →
      (Moreau.step m ls dt tol maxIter tk qk uk laN laT).la_Tk1 t = 0) ∧
    ((Moreau.step m ls dt tol maxIter tk qk uk laN laT).converged = false →
      (Moreau.step m ls dt tol maxIter tk qk uk laN laT).la_Nk1 = 0 ∧
      (Moreau.step m ls dt tol maxIter tk qk uk laN laT).la_Tk1 = 0) := by
  unfold Moreau.step
  split
  · exact ⟨fun i _ => rfl, fun t _ => rfl, fun hfalse => Bool.noConfusion hfalse⟩
  · have h := loopGo_la_masked (Moreau.stepCtx m ls dt tol tk qk uk) maxIter 0 0
      (Moreau.initIterState m ls dt tk qk uk laN laT)
    exact ⟨h.2.1, h.2.2, h.1⟩

/-- Witness for C9: the separated one-contact model, whose single candidate
contact is inactive, returns zero percussions at both inactive indices. -/
theorem moreau_step_percussion_masking_witness :
    (Moreau.step separatedModel diagSolve 1 (1 / 1000) 1000 0 (0 : Vec 1) (0 : Vec 1)
        (fun _ => 5) (fun _ => 7)).la_Nk1 0 = 0 ∧
    (Moreau.step separatedModel diagSolve 1 (1 / 1000) 1000 0 (0 : Vec 1) (0 : Vec 1)
        (fun _ => 5) (fun _ => 7)).la_Tk1 0 = 0 :=
  have h := moreau_step_percussion_masking separatedModel diagSolve 1 (1 / 1000)
    1000 0 (0 : Vec 1) (0 : Vec 1) (fun _ => 5) (fun _ => 7)
  ⟨h.1 0 (by norm_num [Moreau.activeSetN, separatedModel]),
   h.2.1 0 (by norm_num [Moreau.activeSetT, Moreau.activeSetN, activeList,
     separatedModel, List.finRange])⟩

/-- C7 (amended): when some contact is active, the step's fixed-point loop
converges exactly at the first iteration `k` at which the error — defined as
`fix_point_error_function` of the stacked differences of the ACTIVE contact
percussions between the fresh update and the previous iterate, i.e.
`max(|R|)/len(R)` with `R = [la_N[I_N]-la_N0[I_N], la_T[I_T]-la_T0[I_T]]`
(`iterError`) — drops below the fixed tolerance `fix_point_tol`; the step
then reports `converged = true`, iteration count `k`, that error value, and
freezes the updated contact percussions restricted to the active index sets
into its output, while the returned velocities and bilateral multipliers are
the ones of the solve preceding the test. -/
theorem moreau_step_convergence_characterization
    (m : Model nq nu nlag nlagam nN nT) (ls : LinSolve nu nlag nlagam)
    (dt tol : ℚ) (maxIter : ℕ) (tk : ℚ) (qk : Vec nq) (uk : Vec nu)
    (laN : Vec nN) (laT : Vec nT) (k : ℕ)
    (hact : (activeList (Moreau.activeSetN m dt tk qk uk)).isEmpty = false)
    (hk : k < maxIter)
    (hconv : iterError (Moreau.stepCtx m ls dt tol tk qk uk)
      (loopState (Moreau.stepCtx m ls dt tol tk qk uk)
        (Moreau.initIterState m ls dt tk qk uk laN laT) k) < tol)
    (hmin : ∀ l, l < k → ¬ iterError (Moreau.stepCtx m ls dt tol tk qk uk)
      (loopState (Moreau.stepCtx m ls dt tol tk qk uk)
        (Moreau.initIterState m ls dt tk qk uk laN laT) l) < tol) :
    Moreau.step m ls dt tol maxIter tk qk uk laN laT =
      { converged := true, j := k,
        error := iterError (Moreau.stepCtx m ls dt tol tk qk uk)
          (loopState (Moreau.stepCtx m ls dt tol tk qk uk)
            (Moreau.initIterState m ls dt tk qk uk laN laT) k),
        tk1 := Moreau.trialT dt tk, qk1 := Moreau.trialQ m dt tk qk uk,
        uk1 := (loopState (Moreau.stepCtx m ls dt tol tk qk uk)
          (Moreau.initIterState m ls dt tk qk uk laN laT) k).uk1,
        la_gk1 := (loopState (Moreau.stepCtx m ls dt tol tk qk uk)
          (Moreau.initIterState m ls dt tk qk uk laN laT) k).la_gk1,
        la_gammak1 := (loopState (Moreau.stepCtx m ls dt tol tk qk uk)
          (Moreau.initIterState m ls dt tk qk uk laN laT) k).la_gammak1,
        la_Nk1 := maskN (Moreau.activeSetN m dt tk qk uk)
          (loopUpdate (Moreau.stepCtx m ls dt tol tk qk uk)
            (loopState (Moreau.stepCtx m ls dt tol tk qk uk)
              (Moreau.initIterState m ls dt tk qk uk laN laT) k)).1,
        la_Tk1 := maskT (Moreau.activeSetT m dt tk qk uk)
          (loopUpdate (Moreau.stepCtx m ls dt tol tk qk uk)
            (loopState (Moreau.stepCtx m ls dt tol tk qk uk)
              (Moreau.initIterState m ls dt tk qk uk laN laT) k)).2 } := by
  unfold Moreau.step
  rw [if_neg (by rw [hact]; exact Bool.false_ne_true)]
  rw [loopGo_first_convergence (Moreau.stepCtx m ls dt tol tk qk uk) maxIter k 0 0
    (Moreau.initIterState m ls dt tk qk uk laN laT) hk hconv hmin]
  unfold Moreau.stepResultOfLoop
  simp only [Nat.zero_add]
  rfl

/-- Evaluation helper: the residual error of the touching-contact model with
identity update is zero already at the first iteration. -/
theorem touch_iterError_eval :
    iterError (Moreau.stepCtx touchModel diagSolve 1 (1 / 1000) 0 (0 : Vec 1) (0 : Vec 1))
      (Moreau.initIterState touchModel diagSolve 1 0 (0 : Vec 1) (0 : Vec 1)
        (0 : Vec 1) (0 : Vec 1)) = 0 := by
  have hIN : activeList ((Moreau.stepCtx touchModel diagSolve 1 (1 / 1000) 0
      (0 : Vec 1) (0 : Vec 1)).IN) = [0] := by decide
  have hIT : (Moreau.stepCtx touchModel diagSolve 1 (1 / 1000) 0
      (0 : Vec 1) (0 : Vec 1)).IT = [0] := by decide
  unfold iterError residualList
  rw [hIN, hIT]
  simp [loopUpdate, Moreau.stepCtx, touchModel, Moreau.initIterState,
    fix_point_error_function, maxAbsList]

/-- Witness for C7 (amended) at the touching-contact model: convergence at
iteration `k = 0` with error `0`. -/
theorem moreau_step_convergence_characterization_witness :
    (Moreau.step touchModel diagSolve 1 (1 / 1000) 1000 0 (0 : Vec 1) (0 : Vec 1)
      (0 : Vec 1) (0 : Vec 1)).converged = true ∧
    (Moreau.step touchModel diagSolve 1 (1 / 1000) 1000 0 (0 : Vec 1) (0 : Vec 1)
      (0 : Vec 1) (0 : Vec 1)).j = 0 := by
  have h := moreau_step_convergence_characterization touchModel diagSolve 1 (1 / 1000)
    1000 0 (0 : Vec 1) (0 : Vec 1) (0 : Vec 1) (0 : Vec 1) 0
    (by decide) (by decide)
    (show iterError _ (Moreau.initIterState touchModel diagSolve 1 0 (0 : Vec 1)
        (0 : Vec 1) (0 : Vec 1) (0 : Vec 1)) < 1 / 1000 by
      rw [touch_iterError_eval]; norm_num)
    (fun l hl => absurd hl (Nat.not_lt_zero l))
  rw [h]
  exact ⟨rfl, rfl⟩

/-!  ## Evaluation of the diverging-model step (helper lemmas)  -/

/-- Along the loop iterates of any context, `la_Nk0` and `la_Nk1_i` agree
from the first body execution on (and at start when warm-started equal). -/
theorem diverging_invariant (k : ℕ) :
    (loopState (Moreau.stepCtx divergingModel diagSolve 1 (1 / 1000) 0 (0 : Vec 1)
        (0 : Vec 1))
      (Moreau.initIterState divergingModel diagSolve 1 0 (0 : Vec 1) (0 : Vec 1)
        (0 : Vec 1) (0 : Vec 0)) k).la_Nk0
    = (loopState (Moreau.stepCtx divergingModel diagSolve 1 (1 / 1000) 0 (0 : Vec 1)
        (0 : Vec 1))
      (Moreau.initIterState divergingModel diagSolve 1 0 (0 : Vec 1) (0 : Vec 1)
        (0 : Vec 1) (0 : Vec 0)) k).la_Nk1_i := by
  cases k with
  | zero => rfl
  | succ n =>
    rw [show loopState (Moreau.stepCtx divergingModel diagSolve 1 (1 / 1000) 0
        (0 : Vec 1) (0 : Vec 1))
        (Moreau.initIterState divergingModel diagSolve 1 0 (0 : Vec 1) (0 : Vec 1)
          (0 : Vec 1) (0 : Vec 0)) (n + 1)
      = nextState (Moreau.stepCtx divergingModel diagSolve 1 (1 / 1000) 0 (0 : Vec 1)
          (0 : Vec 1))
          (loopState (Moreau.stepCtx divergingModel diagSolve 1 (1 / 1000) 0 (0 : Vec 1)
            (0 : Vec 1))
            (Moreau.initIterState divergingModel diagSolve 1 0 (0 : Vec 1) (0 : Vec 1)
              (0 : Vec 1) (0 : Vec 0)) n) from Function.iterate_succ_apply' _ _ _]
    rfl

/-- The percussion-residual error of the diverging model is constantly `1`:
the update increments the single active percussion by one each iteration. -/
theorem diverging_iterError (st : IterState 1 0 0 1 0)
    (hinv : st.la_Nk0 = st.la_Nk1_i) :
    iterError (Moreau.stepCtx divergingModel diagSolve 1 (1 / 1000) 0 (0 : Vec 1)
      (0 : Vec 1)) st = 1 := by
  have hIN : activeList ((Moreau.stepCtx divergingModel diagSolve 1 (1 / 1000) 0
      (0 : Vec 1) (0 : Vec 1)).IN) = [0] := by decide
  have hIT : (Moreau.stepCtx divergingModel diagSolve 1 (1 / 1000) 0
      (0 : Vec 1) (0 : Vec 1)).IT = ([] : List (Fin 0)) := rfl
  unfold iterError residualList
  rw [hIN, hIT]
  simp [loopUpdate, Moreau.stepCtx, divergingModel, hinv,
    fix_point_error_function, maxAbsList]

/-- The generalized normal contact force of the diverging model vanishes:
its `W_N` is the zero matrix. -/
theorem diverging_forceN (laN : Vec 1) (a : Fin 1) :
    forceN ((Moreau.stepCtx divergingModel diagSolve 1 (1 / 1000) 0 (0 : Vec 1)
        (0 : Vec 1)).WN)
      ((Moreau.stepCtx divergingModel diagSolve 1 (1 / 1000) 0 (0 : Vec 1)
        (0 : Vec 1)).IN) laN a = 0 := by
  have hIN : activeList ((Moreau.stepCtx divergingModel diagSolve 1 (1 / 1000) 0
      (0 : Vec 1) (0 : Vec 1)).IN) = [0] := by decide
  unfold forceN
  rw [hIN]
  simp [Moreau.stepCtx, divergingModel]

/-- The linear system of the diverging model does not depend on the contact
percussions (zero `W_N`, empty `I_T`). -/
theorem diverging_loopSolve_const (laN : Vec 1) (laT : Vec 0) :
    loopSolve (Moreau.stepCtx divergingModel diagSolve 1 (1 / 1000) 0 (0 : Vec 1)
        (0 : Vec 1)) laN laT
      = loopSolve (Moreau.stepCtx divergingModel diagSolve 1 (1 / 1000) 0 (0 : Vec 1)
        (0 : Vec 1)) 0 0 := by
  have hb : assembleB (Moreau.stepCtx divergingModel diagSolve 1 (1 / 1000) 0
        (0 : Vec 1) (0 : Vec 1)).Mm
      (Moreau.stepCtx divergingModel diagSolve 1 (1 / 1000) 0 (0 : Vec 1) (0 : Vec 1)).uk
      (Moreau.stepCtx divergingModel diagSolve 1 (1 / 1000) 0 (0 : Vec 1) (0 : Vec 1)).dt
      (Moreau.stepCtx divergingModel diagSolve 1 (1 / 1000) 0 (0 : Vec 1) (0 : Vec 1)).hv
      (forceN (Moreau.stepCtx divergingModel diagSolve 1 (1 / 1000) 0 (0 : Vec 1)
          (0 : Vec 1)).WN
        (Moreau.stepCtx divergingModel diagSolve 1 (1 / 1000) 0 (0 : Vec 1)
          (0 : Vec 1)).IN laN)
      (forceT (Moreau.stepCtx divergingModel diagSolve 1 (1 / 1000) 0 (0 : Vec 1)
          (0 : Vec 1)).WT
        (Moreau.stepCtx divergingModel diagSolve 1 (1 / 1000) 0 (0 : Vec 1)
          (0 : Vec 1)).IT laT)
      (Moreau.stepCtx divergingModel diagSolve 1 (1 / 1000) 0 (0 : Vec 1)
        (0 : Vec 1)).chig
      (Moreau.stepCtx divergingModel diagSolve 1 (1 / 1000) 0 (0 : Vec 1)
        (0 : Vec 1)).chigam
      = assembleB (Moreau.stepCtx divergingModel diagSolve 1 (1 / 1000) 0
          (0 : Vec 1) (0 : Vec 1)).Mm
        (Moreau.stepCtx divergingModel diagSolve 1 (1 / 1000) 0 (0 : Vec 1) (0 : Vec 1)).uk
        (Moreau.stepCtx divergingModel diagSolve 1 (1 / 1000) 0 (0 : Vec 1) (0 : Vec 1)).dt
        (Moreau.stepCtx divergingModel diagSolve 1 (1 / 1000) 0 (0 : Vec 1) (0 : Vec 1)).hv
        (forceN (Moreau.stepCtx divergingModel diagSolve 1 (1 / 1000) 0 (0 : Vec 1)
            (0 : Vec 1)).WN
          (Moreau.stepCtx divergingModel diagSolve 1 (1 / 1000) 0 (0 : Vec 1)
            (0 : Vec 1)).IN (0 : Vec 1))
        (forceT (Moreau.stepCtx divergingModel diagSolve 1 (1 / 1000) 0 (0 : Vec 1)
            (0 : Vec 1)).WT
          (Moreau.stepCtx divergingModel diagSolve 1 (1 / 1000) 0 (0 : Vec 1)
            (0 : Vec 1)).IT (0 : Vec 0))
        (Moreau.stepCtx divergingModel diagSolve 1 (1 / 1000) 0 (0 : Vec 1)
          (0 : Vec 1)).chig
        (Moreau.stepCtx divergingModel diagSolve 1 (1 / 1000) 0 (0 : Vec 1)
          (0 : Vec 1)).chigam := by
    funext idx
    cases idx with
    | inl a =>
      simp only [assembleB, Sum.elim_inl]
      rw [diverging_forceN laN a, diverging_forceN 0 a]
      rfl
    | inr b =>
      cases b with
      | inl b => exact b.elim0
      | inr b => exact b.elim0
  unfold loopSolve
  rw [hb]

/-- The trial velocities of the diverging model never change across the
fixed-point iterations: every re-solve reproduces the direct-solve value. -/
theorem diverging_loopState_uk1 (k : ℕ) :
    (loopState (Moreau.stepCtx divergingModel diagSolve 1 (1 / 1000) 0 (0 : Vec 1)
        (0 : Vec 1))
      (Moreau.initIterState divergingModel diagSolve 1 0 (0 : Vec 1) (0 : Vec 1)
        (0 : Vec 1) (0 : Vec 0)) k).uk1
    = (Moreau.initIterState divergingModel diagSolve 1 0 (0 : Vec 1) (0 : Vec 1)
        (0 : Vec 1) (0 : Vec 0)).uk1 := by
  induction k with
  | zero => rfl
  | succ n ih =>
    rw [show loopState (Moreau.stepCtx divergingModel diagSolve 1 (1 / 1000) 0
        (0 : Vec 1) (0 : Vec 1))
        (Moreau.initIterState divergingModel diagSolve 1 0 (0 : Vec 1) (0 : Vec 1)
          (0 : Vec 1) (0 : Vec 0)) (n + 1)
      = nextState (Moreau.stepCtx divergingModel diagSolve 1 (1 / 1000) 0 (0 : Vec 1)
          (0 : Vec 1))
          (loopState (Moreau.stepCtx divergingModel diagSolve 1 (1 / 1000) 0 (0 : Vec 1)
            (0 : Vec 1))
            (Moreau.initIterState divergingModel diagSolve 1 0 (0 : Vec 1) (0 : Vec 1)
              (0 : Vec 1) (0 : Vec 0)) n) from Function.iterate_succ_apply' _ _ _]
    rw [show ∀ (st : IterState 1 0 0 1 0),
        (nextState (Moreau.stepCtx divergingModel diagSolve 1 (1 / 1000) 0 (0 : Vec 1)
          (0 : Vec 1)) st).uk1
        = fun a => loopSolve (Moreau.stepCtx divergingModel diagSolve 1 (1 / 1000) 0
            (0 : Vec 1) (0 : Vec 1))
            (loopUpdate (Moreau.stepCtx divergingModel diagSolve 1 (1 / 1000) 0
              (0 : Vec 1) (0 : Vec 1)) st).1
            (loopUpdate (Moreau.stepCtx divergingModel diagSolve 1 (1 / 1000) 0
              (0 : Vec 1) (0 : Vec 1)) st).2 (Sum.inl a)
      from fun st => rfl]
    funext a
    rw [diverging_loopSolve_const]
    rfl

/-- The direct-solve velocity of the diverging model is zero. -/
theorem diverging_init_uk1 :
    (Moreau.initIterState divergingModel diagSolve 1 0 (0 : Vec 1) (0 : Vec 1)
      (0 : Vec 1) (0 : Vec 0)).uk1 = 0 := by
  funext a
  show Moreau.directX divergingModel diagSolve 1 0 (0 : Vec 1) (0 : Vec 1)
    (0 : Vec 1) (0 : Vec 0) (Sum.inl a) = 0
  unfold Moreau.directX diagSolve
  have hb : Moreau.stepRhs divergingModel 1 0 (0 : Vec 1) (0 : Vec 1) (0 : Vec 1)
      (0 : Vec 0) (Sum.inl a) = 0 := by
    show _ + forceN _ _ (0 : Vec 1) a + forceT _ _ (0 : Vec 0) a = 0
    rw [show forceN (divergingModel.W_N (Moreau.trialT 1 0)
        (Moreau.trialQ divergingModel 1 0 (0 : Vec 1) (0 : Vec 1)))
        (Moreau.activeSetN divergingModel 1 0 (0 : Vec 1) (0 : Vec 1)) (0 : Vec 1) a
      = 0 from diverging_forceN 0 a]
    simp [forceT, Moreau.activeSetT, assembleB, divergingModel, Matrix.mulVec]
  rw [hb]
  simp

/-- Full evaluation of one step of the diverging model: the loop exhausts
its 1000-iteration budget, the step reports `converged = false`, `j = 999`,
`error = 1`, while positions, velocities and all percussions are zero. -/
theorem diverging_step_eval :
    Moreau.step divergingModel diagSolve 1 (1 / 1000) 1000 0 (0 : Vec 1) (0 : Vec 1)
      (0 : Vec 1) (0 : Vec 0)
      = ⟨false, 999, 1, 1, 0, 0, 0, 0, 0, 0⟩ := by
  have hmin : ∀ l, l < 1000 →
      ¬ iterError (Moreau.stepCtx divergingModel diagSolve 1 (1 / 1000) 0 (0 : Vec 1)
          (0 : Vec 1))
        (loopState (Moreau.stepCtx divergingModel diagSolve 1 (1 / 1000) 0 (0 : Vec 1)
            (0 : Vec 1))
          (Moreau.initIterState divergingModel diagSolve 1 0 (0 : Vec 1) (0 : Vec 1)
            (0 : Vec 1) (0 : Vec 0)) l)
        < (Moreau.stepCtx divergingModel diagSolve 1 (1 / 1000) 0 (0 : Vec 1)
            (0 : Vec 1)).tol := by
    intro l _
    rw [diverging_iterError _ (diverging_invariant l)]
    show ¬ (1 : ℚ) < 1 / 1000
    norm_num
  unfold Moreau.step
  rw [if_neg (by decide)]
  rw [loopGo_exhaustion (Moreau.stepCtx divergingModel diagSolve 1 (1 / 1000) 0
      (0 : Vec 1) (0 : Vec 1)) 1000 0 0
    (Moreau.initIterState divergingModel diagSolve 1 0 (0 : Vec 1) (0 : Vec 1)
      (0 : Vec 1) (0 : Vec 0)) hmin]
  unfold Moreau.stepResultOfLoop
  refine Moreau.StepResult.ext rfl (by norm_num) ?_ (by norm_num [Moreau.trialT]) ?_ ?_
    ?_ ?_ rfl rfl
  · rw [if_neg (by norm_num), diverging_iterError _ (diverging_invariant 999)]
  · funext i
    simp [Moreau.trialQ, divergingModel]
  · rw [diverging_loopState_uk1, diverging_init_uk1]
  · funext b
    exact b.elim0
  · funext b
    exact b.elim0

/-- C7 counterexample: on the diverging one-contact model, the trial
velocities never change — the returned velocity equals the pre-loop
direct-solve velocity, so the spec's error `max(|u - u0|)` is `0 < atol` at
every iteration — yet `Moreau.step` reports `converged = false` with
`error = 1` after exhausting the budget: the convergence test is computed
from the contact-percussion differences, not from the velocities, and the
reported error differs from the max-abs velocity difference. -/
theorem moreau_convergence_test_counterexample :
    (Moreau.step divergingModel diagSolve 1 (1 / 1000) 1000 0 (0 : Vec 1) (0 : Vec 1)
      (0 : Vec 1) (0 : Vec 0)).converged = false ∧
    (Moreau.step divergingModel diagSolve 1 (1 / 1000) 1000 0 (0 : Vec 1) (0 : Vec 1)
      (0 : Vec 1) (0 : Vec 0)).error = 1 ∧
    (Moreau.step divergingModel diagSolve 1 (1 / 1000) 1000 0 (0 : Vec 1) (0 : Vec 1)
      (0 : Vec 1) (0 : Vec 0)).uk1
      = (Moreau.initIterState divergingModel diagSolve 1 0 (0 : Vec 1) (0 : Vec 1)
          (0 : Vec 1) (0 : Vec 0)).uk1 ∧
    (Moreau.step divergingModel diagSolve 1 (1 / 1000) 1000 0 (0 : Vec 1) (0 : Vec 1)
      (0 : Vec 1) (0 : Vec 0)).error
      ≠ maxAbsList (List.map
          (fun a => (Moreau.step divergingModel diagSolve 1 (1 / 1000) 1000 0
              (0 : Vec 1) (0 : Vec 1) (0 : Vec 1) (0 : Vec 0)).uk1 a
            - (Moreau.initIterState divergingModel diagSolve 1 0 (0 : Vec 1) (0 : Vec 1)
                (0 : Vec 1) (0 : Vec 0)).uk1 a)
          (List.finRange 1)) := by
  refine ⟨?_, ?_, ?_, ?_⟩
  · rw [diverging_step_eval]
  · rw [diverging_step_eval]
  · rw [diverging_step_eval, diverging_init_uk1]
  · rw [diverging_step_eval, diverging_init_uk1]
    rw [show List.finRange 1 = [0] from rfl]
    show (1 : ℚ) ≠ maxAbsList [(0 : Vec 1) 0 - (0 : Vec 1) 0]
    simp [maxAbsList]

/-- C4 (amended): whenever a step of `Moreau.solve` returns
`converged = false`, the run raises a fatal `RuntimeError` before the step
callback and before the result is appended; there is no caller-configurable
policy (the constructor surface is only `model, t1, dt`) and no opt-in to
continue with the unconverged iterate. -/
theorem moreau_solve_nonconvergence_fatal
    (m : Model nq nu nlag nlagam nN nT) (ls : LinSolve nu nlag nlagam)
    (dt tol : ℚ) (maxIter : ℕ) (tk : ℚ) (rest : List ℚ) (qk : Vec nq) (uk : Vec nu)
    (laN : Vec nN) (laT : Vec nT)
    (h : (Moreau.step m ls dt tol maxIter tk qk uk laN laT).converged = false) :
    Moreau.solveGo m ls dt tol maxIter (tk :: rest) qk uk laN laT
      = .error "RuntimeError: internal fixed point iteration not converged" := by
  simp only [Moreau.solveGo]
  rw [h]
  rfl

/-- Witness for C4 (amended): the diverging model's single step is flagged
non-converged and the grid loop raises. -/
theorem moreau_solve_nonconvergence_fatal_witness :
    Moreau.solveGo divergingModel diagSolve 1 (1 / 1000) 1000 [0] (0 : Vec 1)
      (0 : Vec 1) (0 : Vec 1) (0 : Vec 0)
      = .error "RuntimeError: internal fixed point iteration not converged" :=
  moreau_solve_nonconvergence_fatal divergingModel diagSolve 1 (1 / 1000) 1000 0 []
    (0 : Vec 1) (0 : Vec 1) (0 : Vec 1) (0 : Vec 0)
    (congrArg Moreau.StepResult.converged diverging_step_eval)

/-- C4 counterexample: running `Moreau.solve` on the diverging model
(`t1 = 1, dt = 1`, one grid step) aborts with the fatal `RuntimeError`; the
constructor surface (`model, t1, dt` — see `Moreau.construct`) offers no
policy under which the run would instead proceed with the last iterate. -/
theorem moreau_solve_policy_counterexample :
    Moreau.solve divergingModel diagSolve 1 1 (1 / 1000) 1000
      = .error "RuntimeError: internal fixed point iteration not converged" := by
  have hlen : Moreau.arangeLen divergingModel.t0 (1 + 1) 1 = 2 := by
    show (⌈((1 : ℚ) + 1 - divergingModel.t0) / 1⌉ : ℤ).toNat = 2
    rw [show ((1 : ℚ) + 1 - divergingModel.t0) / 1 = ((2 : ℤ) : ℚ) by
      norm_num [divergingModel]]
    rw [Int.ceil_intCast]
    rfl
  have hgrid : (Moreau.arange divergingModel.t0 (1 + 1) 1).dropLast = [0] := by
    unfold Moreau.arange
    rw [hlen]
    rw [show List.range 2 = [0, 1] from rfl]
    simp [divergingModel]
  have hstep : (Moreau.step divergingModel diagSolve 1 (1 / 1000) 1000 0
      divergingModel.q0 divergingModel.u0 divergingModel.la_N0
      divergingModel.la_T0).converged = false :=
    congrArg Moreau.StepResult.converged diverging_step_eval
  have hgo : Moreau.solveGo divergingModel diagSolve 1 (1 / 1000) 1000 [0]
      divergingModel.q0 divergingModel.u0 divergingModel.la_N0 divergingModel.la_T0
      = .error "RuntimeError: internal fixed point iteration not converged" := by
    simp only [Moreau.solveGo]
    rw [hstep]
    rfl
  unfold Moreau.solve
  rw [hgrid, hgo]

/-!  ## Constraint residuals at the assembly configuration (C8)  -/

/-- C8: because `assembler_callback` captures the `B`-frame offsets and
orientations once from the configuration at `t0`, the bilateral residual `g`
measures drift from that initial relative pose: evaluated at the initial
time and initial coordinates it is the zero vector for `RigidConnection`
(provided the subsystem orientations are rotation matrices, `A^T A = 1`),
and zero for `Rod`, whose captured reference distance is the initial
attachment-point distance. -/
theorem constraint_residual_zero_at_assembly
    {n1 n2 m1 m2 : ℕ} (s1 : Subsystem n1) (s2 : Subsystem n2)
    (h1 : Matrix.transpose (s1.A_IK s1.t0 s1.q0) * s1.A_IK s1.t0 s1.q0 = 1)
    (h2 : Matrix.transpose (s2.A_IK s2.t0 s2.q0) * s2.A_IK s2.t0 s2.q0 = 1)
    (ht : s2.t0 = s1.t0)
    (r1 : RodSubsystem m1) (r2 : RodSubsystem m2) (htr : r2.t0 = r1.t0) :
    (∀ a, RigidConnection.g s1 s2 s1.t0 s1.q0 s2.q0 a = 0) ∧
    Rod.g r1 r2 r1.t0 r1.q0 r2.q0 = 0 := by
  rw [ht] at h2
  have h2' : s2.A_IK s1.t0 s2.q0 * Matrix.transpose (s2.A_IK s1.t0 s2.q0) = 1 :=
    Matrix.mul_eq_one_comm.mp h2
  have hr1 : ∀ i, RigidConnection.r_OB1 s1 s1.t0 s1.q0 i
      = RigidConnection.r_OP10 s1 i := by
    intro i
    unfold RigidConnection.r_OB1 RigidConnection.K1_r_P1B0 RigidConnection.r_OP10
    simp [Subsystem.r_OP, Matrix.mulVec_zero]
  have hr2 : ∀ i, RigidConnection.r_OB2 s1 s2 s1.t0 s2.q0 i
      = RigidConnection.r_OP10 s1 i := by
    intro i
    unfold RigidConnection.r_OB2 RigidConnection.K2_r_P2B0 Subsystem.r_OP
    rw [ht, Matrix.mulVec_mulVec, h2', Matrix.one_mulVec]
    unfold RigidConnection.r_OP20 RigidConnection.r_OP10 Subsystem.r_OP
    rw [ht]
    simp [Matrix.mulVec_zero]
  have hIB1 : RigidConnection.A_IB1 s1 s1.t0 s1.q0 = s1.A_IK s1.t0 s1.q0 := by
    unfold RigidConnection.A_IB1 RigidConnection.A_K1B0
    rw [h1, Matrix.mul_one]
  have hIB2 : RigidConnection.A_IB2 s1 s2 s1.t0 s2.q0 = s1.A_IK s1.t0 s1.q0 := by
    unfold RigidConnection.A_IB2 RigidConnection.A_K2B0
    rw [ht, ← Matrix.mul_assoc, h2', Matrix.one_mul]
  have hdot : ∀ a b : Fin 3, a ≠ b →
      RigidConnection.rollDot s1 s2 s1.t0 s1.q0 s2.q0 a b = 0 := by
    intro a b hab
    unfold RigidConnection.rollDot
    rw [hIB1, hIB2]
    rw [show (∑ k, s1.A_IK s1.t0 s1.q0 k a * s1.A_IK s1.t0 s1.q0 k b)
        = (Matrix.transpose (s1.A_IK s1.t0 s1.q0) * s1.A_IK s1.t0 s1.q0) a b by
      rw [Matrix.mul_apply]
      simp [Matrix.transpose_apply]]
    rw [h1]
    exact Matrix.one_apply_ne hab
  constructor
  · intro a
    fin_cases a
    · show RigidConnection.r_OB2 s1 s2 s1.t0 s2.q0 0
        - RigidConnection.r_OB1 s1 s1.t0 s1.q0 0 = 0
      rw [hr1 0, hr2 0, sub_self]
    · show RigidConnection.r_OB2 s1 s2 s1.t0 s2.q0 1
        - RigidConnection.r_OB1 s1 s1.t0 s1.q0 1 = 0
      rw [hr1 1, hr2 1, sub_self]
    · show RigidConnection.r_OB2 s1 s2 s1.t0 s2.q0 2
        - RigidConnection.r_OB1 s1 s1.t0 s1.q0 2 = 0
      rw [hr1 2, hr2 2, sub_self]
    · exact hdot 0 1 (by decide)
    · exact hdot 1 2 (by decide)
    · exact hdot 2 0 (by decide)
  · unfold Rod.g Rod.dist
    rw [htr, Real.sq_sqrt (by positivity)]
    rw [show (∑ i, (r2.r_OP r1.t0 r2.q0 i - r1.r_OP r1.t0 r1.q0 i)
          * (r2.r_OP r1.t0 r2.q0 i - r1.r_OP r1.t0 r1.q0 i))
        = ∑ i, (r2.r_OP r1.t0 r2.q0 i - r1.r_OP r1.t0 r1.q0 i) ^ 2 from
      Finset.sum_congr rfl fun i _ => (sq _).symm]
    exact sub_self _

/-- Concrete subsystems for the C8 witness: identity orientations,
constant attachment points at the origin and at `(1, 0, 0)`. -/
def originSubsystem : Subsystem 1 where
  t0 := 0
  q0 := 0
  r_OS := fun _ _ _ => 0
  A_IK := fun _ _ => 1

/-- Second concrete subsystem for the C8 witness. -/
def shiftedSubsystem : Subsystem 1 where
  t0 := 0
  q0 := 0
  r_OS := fun _ _ i => if i = 0 then 1 else 0
  A_IK := fun _ _ => 1

/-- Concrete rod endpoints for the C8 witness. -/
def rodOrigin : RodSubsystem 1 where
  t0 := 0
  q0 := 0
  r_OP := fun _ _ _ => 0

/-- Second concrete rod endpoint for the C8 witness (distance 2). -/
def rodShifted : RodSubsystem 1 where
  t0 := 0
  q0 := 0
  r_OP := fun _ _ i => if i = 0 then 2 else 0

/-- Witness for C8 at the concrete subsystems. -/
theorem constraint_residual_zero_at_assembly_witness :
    (∀ a, RigidConnection.g originSubsystem shiftedSubsystem originSubsystem.t0
      originSubsystem.q0 shiftedSubsystem.q0 a = 0) ∧
    Rod.g rodOrigin rodShifted rodOrigin.t0 rodOrigin.q0 rodShifted.q0 = 0 :=
  constraint_residual_zero_at_assembly originSubsystem shiftedSubsystem
    (show Matrix.transpose (1 : Matrix (Fin 3) (Fin 3) ℚ) * 1 = 1 by simp)
    (show Matrix.transpose (1 : Matrix (Fin 3) (Fin 3) ℚ) * 1 = 1 by simp)
    rfl rodOrigin rodShifted rfl

/-!  ## Quaternion renormalization (C10)  -/

/-- C10: for every `(t, q, u)` with nonzero quaternion part `q[3:]`, the
`step_callback` of `RigidBodyQuaternion` returns a `q` whose quaternion part
has exactly unit norm — so the unit-quaternion residual `g_S` evaluates to
zero afterwards — while the translational coordinates `q[:3]` and the
velocities `u` are returned unchanged. -/
theorem quaternion_step_callback_normalizes (t : ℝ) (q : Fin 7 → ℝ)
    (u : Fin 6 → ℝ) (hq : RigidBodyQuaternion.quatPart q ≠ 0) :
    (∀ i : Fin 7, (i : ℕ) < 3 →
      (RigidBodyQuaternion.step_callback t q u).1 i = q i) ∧
    (RigidBodyQuaternion.step_callback t q u).2 = u ∧
    RigidBodyQuaternion.pynorm
      (RigidBodyQuaternion.quatPart (RigidBodyQuaternion.step_callback t q u).1) = 1 ∧
    RigidBodyQuaternion.g_S t (RigidBodyQuaternion.step_callback t q u).1
      = fun _ => 0 := by
  obtain ⟨j0, hj0⟩ := Function.ne_iff.mp hq
  have hj0' : RigidBodyQuaternion.quatPart q j0 ≠ 0 := by simpa using hj0
  have hS : 0 < ∑ j, RigidBodyQuaternion.quatPart q j ^ 2 := by
    refine Finset.sum_pos' (fun j _ => sq_nonneg _) ⟨j0, Finset.mem_univ j0, ?_⟩
    exact pow_two_pos_of_ne_zero hj0'
  have hN : 0 < RigidBodyQuaternion.pynorm (RigidBodyQuaternion.quatPart q) :=
    Real.sqrt_pos.mpr hS
  have hN2 : RigidBodyQuaternion.pynorm (RigidBodyQuaternion.quatPart q) ^ 2
      = ∑ j, RigidBodyQuaternion.quatPart q j ^ 2 :=
    Real.sq_sqrt hS.le
  have hquat : RigidBodyQuaternion.quatPart (RigidBodyQuaternion.step_callback t q u).1
      = fun j => RigidBodyQuaternion.quatPart q j
          / RigidBodyQuaternion.pynorm (RigidBodyQuaternion.quatPart q) := by
    funext j
    show (if 3 ≤ ((j.addNat 3 : Fin 7) : ℕ) then _ else _) = _
    rw [if_pos (by simp [Fin.addNat])]
    rfl
  have hsum : (∑ j, (RigidBodyQuaternion.quatPart q j
        / RigidBodyQuaternion.pynorm (RigidBodyQuaternion.quatPart q)) ^ 2) = 1 := by
    have hstep : (∑ j, (RigidBodyQuaternion.quatPart q j
        / RigidBodyQuaternion.pynorm (RigidBodyQuaternion.quatPart q)) ^ 2)
      = (∑ j, RigidBodyQuaternion.quatPart q j ^ 2)
          / RigidBodyQuaternion.pynorm (RigidBodyQuaternion.quatPart q) ^ 2 := by
      rw [Finset.sum_div]
      exact Finset.sum_congr rfl fun j _ => div_pow _ _ 2
    rw [hstep, hN2]
    exact div_self (ne_of_gt hS)
  refine ⟨?_, rfl, ?_, ?_⟩
  · intro i hi
    show (if 3 ≤ (i : ℕ) then _ else _) = q i
    rw [if_neg (by omega)]
  · unfold RigidBodyQuaternion.pynorm
    rw [hquat]
    rw [show (∑ j, (fun j => RigidBodyQuaternion.quatPart q j
        / RigidBodyQuaternion.pynorm (RigidBodyQuaternion.quatPart q)) j ^ 2)
      = (∑ j, (RigidBodyQuaternion.quatPart q j
        / RigidBodyQuaternion.pynorm (RigidBodyQuaternion.quatPart q)) ^ 2) from rfl]
    rw [hsum]
    exact Real.sqrt_one
  · funext a
    unfold RigidBodyQuaternion.g_S
    rw [hquat]
    rw [show (∑ j, (fun j => RigidBodyQuaternion.quatPart q j
          / RigidBodyQuaternion.pynorm (RigidBodyQuaternion.quatPart q)) j
        * (fun j => RigidBodyQuaternion.quatPart q j
          / RigidBodyQuaternion.pynorm (RigidBodyQuaternion.quatPart q)) j)
      = (∑ j, (RigidBodyQuaternion.quatPart q j
          / RigidBodyQuaternion.pynorm (RigidBodyQuaternion.quatPart q)) ^ 2) by
      exact Finset.sum_congr rfl fun j _ => (sq _).symm]
    rw [hsum]
    exact sub_self 1

/-- Witness for C10 at the all-ones coordinate vector (quaternion part
`(1, 1, 1, 1)`, norm `2`). -/
theorem quaternion_step_callback_normalizes_witness :
    RigidBodyQuaternion.pynorm (RigidBodyQuaternion.quatPart
      (RigidBodyQuaternion.step_callback 0 (fun _ => 1) (fun _ => 0)).1) = 1 ∧
    RigidBodyQuaternion.g_S 0
      (RigidBodyQuaternion.step_callback 0 (fun _ => 1) (fun _ => 0)).1
      = fun _ => 0 :=
  have h := quaternion_step_callback_normalizes 0 (fun _ => 1) (fun _ => 0)
    (fun hcontra => one_ne_zero (congrFun hcontra 0))
  ⟨h.2.2.1, h.2.2.2⟩

end Cardillo
